import Mathlib

/-!
Verification development for the Isotopic Activation & Decay Timeline Engine
of the IRFDatabase repository (`irradiation/activation.py`, `irradiation/models.py`).

The Python engine is shallowly embedded here:

* Python dicts become ordered association lists (`List (String × _)`) with
  first-match lookup, in-place update of the first matching key, and append
  for fresh keys — exactly the observable behaviour of insertion-ordered
  Python dicts with unique keys.
* Python floats become exact real numbers `ℝ` (with `Real.exp` for
  `np.exp` / `math.exp`); literal float constants in the source become the
  exact rationals the source text denotes.
* `'stable'` markers / numeric half-lives become the `HalfLife` sum type;
  Python `None` becomes `Option.none`.
* The external nuclear-data libraries (PyNE, radioactivedecay) are absent
  in the modelled configuration, exactly as in the source's documented
  fallback mode: `_get_cross_section_data` and `_get_half_life` use the
  built-in `SIMPLE_CROSS_SECTIONS` table, `_decay_inventory` delegates to
  `_decay_simple`, and gamma-line data is an explicit table parameter.
-/

namespace IRF

/-- Product half-life field of the cross-section table: either the literal
string marker `'stable'` or a number of seconds, mirroring the mixed-type
fourth tuple component in `SIMPLE_CROSS_SECTIONS` (activation.py:84-116). -/
inductive HalfLife where
  | stable : HalfLife
  | secs (s : ℚ) : HalfLife
deriving DecidableEq

/-- One row of the fallback cross-section table:
(abundance %, sigma_gamma_barns, product_isotope, half_life_seconds),
mirroring the value tuples of `SIMPLE_CROSS_SECTIONS` (activation.py:84-116). -/
structure XSEntry where
  abundance : ℚ
  sigma : ℚ
  product : String
  half_life : HalfLife
deriving DecidableEq

/-- Lookup in an insertion-ordered string-keyed association list: the value at
the first matching key, modelling Python `dict.get` / `dict[...]` on dicts
with unique keys. -/
def dictGet {α : Type} : List (String × α) → String → Option α
  | [], _ => none
  | p :: rest, k => if p.1 = k then some p.2 else dictGet rest k

/-- Update-or-append on an insertion-ordered association list: replaces the
value at the first matching key in place, or appends a new entry, modelling
Python `d[k] = v`. -/
def dset {α : Type} : List (String × α) → String → α → List (String × α)
  | [], k, v => [(k, v)]
  | p :: rest, k, v => if p.1 = k then (k, v) :: rest else p :: dset rest k v

/-- Simplified thermal-neutron-capture cross-section database, the verbatim
content of `SIMPLE_CROSS_SECTIONS` (activation.py:84-116):
element → isotope → (abundance %, σ_γ barns, product, product half-life s). -/
def SIMPLE_CROSS_SECTIONS : List (String × List (String × XSEntry)) :=
  [ ("Au", [("Au-197", ⟨100.0, 98.65, "Au-198", .secs (2.6955 * 24 * 3600)⟩)]),
    ("Al", [("Al-27", ⟨100.0, 0.231, "Al-28", .secs (134.4 * 60)⟩)]),
    ("Cu", [("Cu-63", ⟨69.15, 4.50, "Cu-64", .secs (12.7 * 3600)⟩),
            ("Cu-65", ⟨30.85, 2.17, "Cu-66", .secs (5.12 * 60)⟩)]),
    ("Co", [("Co-59", ⟨100.0, 37.18, "Co-60", .secs (5.27 * 365.25 * 24 * 3600)⟩)]),
    ("Mn", [("Mn-55", ⟨100.0, 13.3, "Mn-56", .secs (2.5789 * 3600)⟩)]),
    ("Na", [("Na-23", ⟨100.0, 0.530, "Na-24", .secs (14.997 * 3600)⟩)]),
    ("Fe", [("Fe-54", ⟨5.845, 2.25, "Fe-55", .secs (2.73 * 365.25 * 24 * 3600)⟩),
            ("Fe-56", ⟨91.754, 2.59, "Fe-57", .stable⟩),
            ("Fe-57", ⟨2.119, 2.48, "Fe-58", .stable⟩),
            ("Fe-58", ⟨0.282, 1.28, "Fe-59", .secs (44.503 * 24 * 3600)⟩)]),
    ("Ni", [("Ni-58", ⟨68.077, 4.6, "Ni-59", .secs (76000 * 365.25 * 24 * 3600)⟩),
            ("Ni-60", ⟨26.223, 2.9, "Ni-61", .stable⟩),
            ("Ni-62", ⟨3.635, 14.5, "Ni-63", .secs (100.1 * 365.25 * 24 * 3600)⟩),
            ("Ni-64", ⟨0.926, 1.52, "Ni-65", .secs (2.5172 * 3600)⟩)]) ]

/-- Decay constant numerator: the source's literal `LAMBDA_LN2 =
0.693147180559945` (activation.py:119), an approximation of ln 2. -/
def LAMBDA_LN2 : ℚ := 0.693147180559945

/-- Element part of an isotope identifier: the text before the first dash,
modelling `isotope.split('-')[0]` (activation.py:1091,1149). For a dash-free
string this is the whole string, as in Python. -/
def headField (s : String) : String :=
  String.mk (s.toList.takeWhile (fun c => c ≠ '-'))

/-- Mass-number part of an isotope identifier: the text between the first and
second dash, modelling `isotope.split('-')[1]` (activation.py:659,802); `none`
when there is no dash, where Python raises IndexError. -/
def secondField (s : String) : Option String :=
  match s.toList.dropWhile (fun c => c ≠ '-') with
  | [] => none
  | _ :: tail => some (String.mk (tail.takeWhile (fun c => c ≠ '-')))

/-- Cross-section resolution for a target isotope in fallback (non-PyNE) mode,
modelling `_get_cross_section_data` (activation.py:1118-1160): parse the
element from the isotope name, look the element up in the simplified table,
then the isotope, and return (σ barns, product isotope, product half-life);
`none` when absent from the table ("no data", not an error). -/
def getCrossSectionData (isotope : String) : Option (ℚ × String × HalfLife) :=
  match dictGet SIMPLE_CROSS_SECTIONS (headField isotope) with
  | none => none
  | some isos =>
    match dictGet isos isotope with
    | none => none
    | some e => some (e.sigma, e.product, e.half_life)

/-- Half-life resolution for an isotope in fallback (non-PyNE) mode, modelling
`_get_half_life` (activation.py:1063-1103): an isotope's half-life is found
only if it appears as a *product* in its element's rows of the simplified
table; `none` (unknown) otherwise. -/
def getHalfLife (isotope : String) : Option HalfLife :=
  match dictGet SIMPLE_CROSS_SECTIONS (headField isotope) with
  | none => none
  | some isos =>
    match isos.find? (fun p => p.2.product = isotope) with
    | some p => some p.2.half_life
    | none => none

/-- Isotope inventory: insertion-ordered mapping isotope → atom count,
modelling the `{isotope: n_atoms}` dicts threaded through the engine. -/
abbrev Inventory : Type := List (String × ℝ)

/-- Atom count stored for one isotope, `inventory.get(iso)`. -/
def invGet (inv : Inventory) (iso : String) : Option ℝ :=
  dictGet inv iso

/-- One iteration of the activation loop body for target isotope `target`
carrying `n_atoms` atoms, modelling `_activate_inventory`'s loop body
(activation.py:895-932): resolve the cross-section (skip when none), form the
production rate R = σ(cm²)·φ·N, produce by the saturation formula
(R/λ)(1−e^(−λΔt)) for a radioactive product and by R·Δt otherwise, add the
production to the product's entry (creating it if new), then assign the
target's entry `max 0 (n_atoms − n_produced)` — from the pre-step `n_atoms`,
exactly as the source does. -/
noncomputable def activate_step (flux time_s : ℝ) (acc : Inventory) (target : String) (n_atoms : ℝ) :
    Inventory :=
  match getCrossSectionData target with
  | none => acc
  | some (sigma_barns, product, hl) =>
    let sigma_cm2 : ℝ := (sigma_barns : ℝ) * 1e-24
    let production_rate : ℝ := sigma_cm2 * flux * n_atoms
    let n_produced : ℝ :=
      match hl with
      | .secs h =>
        if 0 < h then
          let decay_const : ℝ := (LAMBDA_LN2 : ℝ) / (h : ℝ)
          (production_rate / decay_const) * (1 - Real.exp (-(decay_const * time_s)))
        else production_rate * time_s
      | .stable => production_rate * time_s
    let acc1 : Inventory :=
      match dictGet acc product with
      | some cur => dset acc product (cur + n_produced)
      | none => dset acc product n_produced
    dset acc1 target (max 0 (n_atoms - n_produced))

/-- Neutron activation applied to a whole inventory over one irradiation,
modelling `_activate_inventory` (activation.py:875-934): iterate the loop body
over the *original* inventory's items while mutating a copy. -/
noncomputable def activate_inventory (inv : Inventory) (flux time_s : ℝ) : Inventory :=
  inv.foldl (fun acc p => activate_step flux time_s acc p.1 p.2) inv

/-- Per-isotope decay factor application of `_decay_simple`'s loop body
(activation.py:969-986): resolve `_get_cross_section_data(isotope)` — note,
the *cross-section* record of the isotope as a target, whose half-life field
is the half-life of its activation *product* — keep the count unchanged when
there is no record or the record's half-life is `'stable'` or `0`, otherwise
multiply by e^(−(LAMBDA_LN2/half_life)·Δt). -/
noncomputable def decay_step (time_s : ℝ) (iso : String) (n_atoms : ℝ) : ℝ :=
  match getCrossSectionData iso with
  | none => n_atoms
  | some (_, _, hl) =>
    match hl with
    | .stable => n_atoms
    | .secs h =>
      if h = 0 then n_atoms
      else n_atoms * Real.exp (-(((LAMBDA_LN2 : ℝ) / (h : ℝ)) * time_s))

/-- Simple chain-free decay of a whole inventory, modelling `_decay_simple`
(activation.py:965-988), the engine's decay path when the external
radioactivedecay library is unavailable (`_decay_inventory`,
activation.py:936-952). -/
noncomputable def decay_simple (inv : Inventory) (time_s : ℝ) : Inventory :=
  inv.map (fun p => (p.1, decay_step time_s p.1 p.2))

/-- Reported data for one radioactive isotope in the activity results,
mirroring the per-isotope dict built at activation.py:1039-1046 (the
`half_life_display` string and the constant `is_stable = False` flag are
elided; `fraction` is the key added during filtering, activation.py:1054). -/
structure IsoActivity where
  activity_bq : ℝ
  activity_ci : ℝ
  atoms : ℝ
  half_life_s : ℚ
  fraction : ℝ

/-- Reported data for one stable-or-unknown isotope, mirroring the dict built
at activation.py:1023-1031 (its constant `half_life_s = None`,
`half_life_display = 'stable'` and `is_stable = True` fields are carried by
membership in the stable bucket). -/
structure StableEntry where
  activity_bq : ℝ
  activity_ci : ℝ
  atoms : ℝ
  fraction : ℝ

/-- Return value of `_calculate_activities` (activation.py:1057-1061). -/
structure ActivityResults where
  isotopes : List (String × IsoActivity)
  stable_isotopes : List (String × StableEntry)
  total_activity_bq : ℝ

/-- First pass of `_calculate_activities` (activation.py:1014-1047) for one
inventory entry, threading (radioactive entries, stable entries, running
total): skip non-positive counts; unknown (`None`), `'stable'` and zero
half-lives go to the stable bucket with zero activity; otherwise
activity = (LAMBDA_LN2/half-life)·N is recorded and added to the total when
positive. -/
noncomputable def activities_pass
    (st : List (String × IsoActivity) × List (String × StableEntry) × ℝ)
    (p : String × ℝ) :
    List (String × IsoActivity) × List (String × StableEntry) × ℝ :=
  if p.2 ≤ 0 then st
  else
    match getHalfLife p.1 with
    | none => (st.1, st.2.1 ++ [(p.1, ⟨0, 0, p.2, 0⟩)], st.2.2)
    | some .stable => (st.1, st.2.1 ++ [(p.1, ⟨0, 0, p.2, 0⟩)], st.2.2)
    | some (.secs h) =>
      if h = 0 then (st.1, st.2.1 ++ [(p.1, ⟨0, 0, p.2, 0⟩)], st.2.2)
      else
        let activity_bq : ℝ := ((LAMBDA_LN2 : ℝ) / (h : ℝ)) * p.2
        if 0 < activity_bq then
          (st.1 ++ [(p.1, ⟨activity_bq, activity_bq / 3.7e10, p.2, h, 0⟩)],
            st.2.1, st.2.2 + activity_bq)
        else st

/-- Conversion of an inventory to per-isotope activities at a reference time,
modelling `_calculate_activities` (activation.py:995-1061): a first pass
computes every activity and the *unfiltered* total, then radioactive isotopes
are kept only when their fraction of that total is at least `min_fraction`
(the total itself is returned unfiltered). The `reference_time` argument of
the source is only threaded into display output and is dropped here. -/
noncomputable def calculate_activities (inv : Inventory) (min_fraction : ℝ) :
    ActivityResults :=
  let st := inv.foldl activities_pass ([], [], 0)
  let filtered := st.1.foldl (fun acc q =>
    let fraction : ℝ := if 0 < st.2.2 then q.2.activity_bq / st.2.2 else 0
    if min_fraction ≤ fraction then acc ++ [(q.1, { q.2 with fraction := fraction })]
    else acc) []
  ⟨filtered, st.2.1, st.2.2⟩

/-- Activity contribution of a single inventory entry to the unfiltered total
of `_calculate_activities`, read off the same lines (activation.py:1014-1047):
zero for non-positive counts and stable/unknown isotopes, (LAMBDA_LN2/h)·N
for a radioactive isotope when that value is positive. Used to state that the
reported total is the sum over all radioactive entries, filter or no filter. -/
noncomputable def entryActivity (p : String × ℝ) : ℝ :=
  if p.2 ≤ 0 then 0
  else
    match getHalfLife p.1 with
    | none => 0
    | some .stable => 0
    | some (.secs h) =>
      if h = 0 then 0
      else
        let a : ℝ := ((LAMBDA_LN2 : ℝ) / (h : ℝ)) * p.2
        if 0 < a then a else 0

/-- Gamma-line data for one isotope as delivered by the external nuclear-data
source: `pyne.data.gamma_photon_intensity` and `pyne.data.gamma_energy` both
return lists of (value, uncertainty) pairs (energies in keV); the engine's
algorithm over this data is what is modelled, the data itself is a parameter. -/
structure GammaLines where
  intensities : List (ℚ × ℚ)
  energies : List (ℚ × ℚ)

/-- Per-decay gamma energy of an isotope in MeV, modelling
`_get_gamma_energies` (activation.py:1349-1404): the *intensity-weighted
average* line energy Σ(E_i·I_i)/Σ(I_i), converted from keV to MeV; `none`
when the data source has no lines, the total intensity is not positive, or
the two lists disagree in length (the source's `ecorr` fallback lives on a
library-specific exception path and is likewise absent here). -/
def get_gamma_energies (table : List (String × GammaLines)) (isotope : String) :
    Option ℚ :=
  match dictGet table isotope with
  | none => none
  | some g =>
    if g.intensities ≠ [] ∧ g.energies ≠ [] then
      let total_intensity : ℚ := (g.intensities.map (fun i => i.1)).sum
      if 0 < total_intensity ∧ g.intensities.length = g.energies.length then
        some ((((g.energies.zip g.intensities).map (fun q => q.1.1 * q.2.1)).sum
          / total_intensity) / 1000)
      else none
    else none

/-- Dose-rate estimate at one foot, modelling `_estimate_dose_rate`
(activation.py:1406-1471): for each reported isotope with positive activity,
add `6.0 × activity_Ci × E` when a positive gamma energy `E` resolves, and the
flat fallback `activity_Ci × 500.0` otherwise. -/
noncomputable def estimate_dose_rate (table : List (String × GammaLines))
    (isotopes : List (String × IsoActivity)) : ℝ :=
  isotopes.foldl (fun total p =>
    let activity_ci := p.2.activity_ci
    if activity_ci ≤ 0 then total
    else
      match get_gamma_energies table p.1 with
      | some g =>
        if 0 < g then total + 6.0 * activity_ci * (g : ℝ)
        else total + activity_ci * 500.0
      | none => total + activity_ci * 500.0) 0

/-- Per-decay total gamma energy in MeV as the specification words it
("summed, not averaged, across all emitted gamma lines", spec §4.8):
Σ(E_i·I_i) over the lines with intensities taken as per-decay fractions of
the percent data, keV→MeV. This definition follows the spec, not the source,
and exists to be compared with `get_gamma_energies`. -/
def spec_total_gamma_energy_mev (g : GammaLines) : ℚ :=
  (((g.energies.zip g.intensities).map (fun q => q.1.1 * (q.2.1 / 100))).sum) / 1000

/-- Per-location neutron flux configuration at reference power, modelling the
`FluxConfiguration` model (models.py:746-832). -/
structure FluxConfiguration where
  reference_power : ℚ
  thermal_flux : ℚ
  fast_flux : ℚ
  intermediate_flux : Option ℚ

/-- Return value of `FluxConfiguration.get_scaled_fluxes`. -/
structure ScaledFluxes where
  thermal_flux : ℝ
  fast_flux : ℝ
  intermediate_flux : ℝ
  scale_factor : ℝ

/-- Linear power scaling of a location's fluxes, modelling
`FluxConfiguration.get_scaled_fluxes` (models.py:814-832):
scale = power/reference_power applied to each group; a missing or zero
intermediate flux (falsy in Python) scales to 0. -/
noncomputable def get_scaled_fluxes (fc : FluxConfiguration) (power_kw : ℚ) :
    ScaledFluxes :=
  let scale_factor : ℝ := (power_kw : ℝ) / (fc.reference_power : ℝ)
  { thermal_flux := (fc.thermal_flux : ℝ) * scale_factor
    fast_flux := (fc.fast_flux : ℝ) * scale_factor
    intermediate_flux :=
      match fc.intermediate_flux with
      | some i => if i = 0 then 0 else (i : ℝ) * scale_factor
      | none => 0
    scale_factor := scale_factor }

/-- One irradiation event, modelling the fields of a `SampleIrradiationLog`
row the engine reads: location, power (kW), duration with unit, the date's
isoformat string (`none` when the date is unset, rendered `'Unknown'` in skip
records), and the instants `timezone.make_aware(datetime.combine(date,
time_in/time_out))` as seconds on a common timezone-aware axis. -/
structure IrradiationLog where
  actual_location : String
  actual_power : ℚ
  total_time : ℚ
  total_time_unit : String
  date_iso : Option String
  start_s : ℚ
  end_s : ℚ
deriving DecidableEq

/-- Duration-unit conversion, modelling `_convert_to_seconds`
(activation.py:865-873): `sec`, `min`, `hr` convert; any other unit is passed
through unchanged. -/
def convert_to_seconds (value : ℚ) (unit : String) : ℚ :=
  if unit = "sec" then value
  else if unit = "min" then value * 60
  else if unit = "hr" then value * 3600
  else value

/-- Processing of one irradiation, modelling `_process_irradiation`
(activation.py:816-863): scale the location's fluxes to the event power, sum
the three groups into the total flux, decay the inventory over a positive gap
since the previous event's end, activate for the event's duration, and return
the new inventory with the event's end instant. -/
noncomputable def process_irradiation (inv : Inventory) (log : IrradiationLog)
    (fc : FluxConfiguration) (previous_time : Option ℚ) : Inventory × ℚ :=
  let fluxes := get_scaled_fluxes fc log.actual_power
  let total_flux : ℝ := fluxes.thermal_flux + fluxes.fast_flux + fluxes.intermediate_flux
  let total_time_s : ℚ := convert_to_seconds log.total_time log.total_time_unit
  let inv1 : Inventory :=
    match previous_time with
    | some prev =>
      let decay_time_s : ℚ := log.start_s - prev
      if 0 < decay_time_s then decay_simple inv ((decay_time_s : ℝ)) else inv
    | none => inv
  (activate_inventory inv1 total_flux ((total_time_s : ℝ)), log.end_s)

/-- ASCII lower-casing of one character, as Python `str.lower` acts on the
identifiers appearing here. -/
def lowerChar (c : Char) : Char :=
  if 'A' ≤ c ∧ c ≤ 'Z' then Char.ofNat (c.toNat + 32) else c

/-- ASCII upper-casing of one character, as Python `str.upper` acts on the
identifiers appearing here. -/
def upperChar (c : Char) : Char :=
  if 'a' ≤ c ∧ c ≤ 'z' then Char.ofNat (c.toNat - 32) else c

/-- Python `s.lower()` on the ASCII identifiers used by the engine. -/
def pyLower (s : String) : String :=
  String.mk (s.toList.map lowerChar)

/-- Python `s.capitalize()`: first character upper-cased, the rest
lower-cased. -/
def pyCapitalize (s : String) : String :=
  match s.toList with
  | [] => ""
  | c :: cs => String.mk (upperChar c :: cs.map lowerChar)

/-- Python `s.strip()` restricted to the space character, the only whitespace
occurring in the identifiers the engine strips. -/
def pyStrip (s : String) : String :=
  String.mk (((s.toList.dropWhile (fun c => c = ' ')).reverse.dropWhile
    (fun c => c = ' ')).reverse)

/-- Removal of every occurrence of a (non-empty) pattern from a character
list, the semantics of Python `s.replace(pat, '')` scanning left to right
over non-overlapping occurrences. -/
def stripAllOcc (pat : List Char) : List Char → List Char
  | [] => []
  | c :: rest =>
    if h : pat ≠ [] ∧ pat.isPrefixOf (c :: rest) then
      stripAllOcc pat ((c :: rest).drop pat.length)
    else c :: stripAllOcc pat rest
termination_by l => l.length
decreasing_by
  all_goals simp only [List.length_drop, List.length_cons]
  · have hp : 0 < pat.length := List.length_pos.mpr h.1
    omega
  · omega

/-- Python `s.replace(pat, '')`, as used to drop a duplicated element prefix
from an isotope identifier (activation.py:698). -/
def pyReplace (s pat : String) : String :=
  String.mk (stripAllOcc pat.toList s.toList)

/-- One `SampleComposition` row as the engine reads it: element symbol,
isotope designation (`""` for the falsy unset/None case), fraction in
percent. -/
structure CompositionElement where
  element : String
  isotope : String
  fraction : ℚ
deriving DecidableEq

/-- The sample fields the engine reads: identifier, mass with unit (`none`
and the Python-falsy `0` both mean unset), declared composition rows, and the
material-type fallback string (`""` for the falsy unset/None case). -/
structure Sample where
  sample_id : String
  mass : Option ℚ
  mass_unit : String
  composition_elements : List CompositionElement
  material_type : String

/-- Natural-isotope expansion of an element in fallback (non-PyNE) mode,
modelling `_get_natural_isotopes` (activation.py:718-764): the element's
table rows with abundances converted from percent, or the
`{Element-Unknown: 1.0}` placeholder for an element absent from the table. -/
def get_natural_isotopes (element : String) : List (String × ℚ) :=
  match dictGet SIMPLE_CROSS_SECTIONS element with
  | some isotopes => isotopes.map (fun p => (p.1, p.2.abundance / 100))
  | none => [(element ++ "-Unknown", 1)]

/-- One iteration of the declared-composition loop of
`_get_sample_composition` (activation.py:686-706): ensure the element's inner
dict exists, then either record the specified isotope (with a duplicated
`Element-` prefix removed and whitespace stripped) at the element fraction,
or expand the element's natural isotopes weighted by abundance into the inner
dict. -/
def composition_step (composition : List (String × List (String × ℚ)))
    (comp : CompositionElement) : List (String × List (String × ℚ)) :=
  let element := comp.element
  let composition :=
    if (dictGet composition element).isSome then composition
    else dset composition element []
  let element_fraction : ℚ := comp.fraction / 100
  let inner := (dictGet composition element).getD []
  if comp.isotope ≠ "" ∧ pyLower comp.isotope ∉ ["natural", "nat", ""] then
    let isotope_part := pyStrip (pyReplace comp.isotope (element ++ "-"))
    let isotope := element ++ "-" ++ isotope_part
    dset composition element (dset inner isotope element_fraction)
  else
    dset composition element
      ((get_natural_isotopes element).foldl
        (fun inner2 q => dset inner2 q.1 (element_fraction * q.2)) inner)

/-- Composition resolution, modelling `_get_sample_composition`
(activation.py:672-716): declared rows win (processed by
`composition_step`); absent rows, a truthy material type is read as an
element symbol and fully expanded; otherwise the mapping is empty. -/
def get_sample_composition (sample : Sample) :
    List (String × List (String × ℚ)) :=
  if sample.composition_elements ≠ [] then
    sample.composition_elements.foldl composition_step []
  else if sample.material_type ≠ "" then
    let element := pyCapitalize (pyStrip sample.material_type)
    [(element, get_natural_isotopes element)]
  else []

/-- Sample mass normalized to grams as `_initialize_inventory` computes it
(activation.py:779-795): unset (or Python-falsy 0) mass defaults to 1 g with
a warning; `mg` and `kg` convert; an unknown unit is assumed to be grams. -/
def sample_mass_g (sample : Sample) : ℚ :=
  match sample.mass with
  | none => 1
  | some m =>
    if m = 0 then 1
    else
      let unit := if sample.mass_unit = "" then "g" else sample.mass_unit
      if unit = "mg" then m / 1000
      else if unit = "kg" then m * 1000
      else m

/-- Initial atom inventory from composition and mass, modelling
`_initialize_inventory` (activation.py:766-814): for each isotope,
N = mass_g · fraction · 6.022e23 / mass_number, skipping isotopes whose mass
number does not parse from the identifier. -/
noncomputable def initialize_inventory
    (composition : List (String × List (String × ℚ))) (sample : Sample) :
    Inventory :=
  let mass_g := sample_mass_g sample
  composition.foldl (fun inventory ep =>
    ep.2.foldl (fun inventory2 ip =>
      match (secondField ip.1).bind (fun t => t.toNat?) with
      | none => inventory2
      | some mass_number =>
        let element_mass_g : ℚ := mass_g * ip.2
        let n_atoms : ℝ := ((element_mass_g : ℝ) * 6.022e23) / (mass_number : ℝ)
        dset inventory2 ip.1 n_atoms) inventory) []

/-- Per-isotope initial atom count used by `decay_to_date` to restore stable
parents, modelling `_calculate_initial_atoms` (activation.py:629-670): 0 for
an unset (falsy) mass, otherwise mass_g · fraction · 6.022e23 / mass_number
with the source's fallback mass number 197 when parsing fails. The `element`
argument is accepted and unused, as in the source. -/
noncomputable def calculate_initial_atoms (sample : Sample) (element : String)
    (isotope : String) (fraction : ℚ) : ℝ :=
  match sample.mass with
  | none => 0
  | some m =>
    if m = 0 then 0
    else
      let unit := if sample.mass_unit = "" then "g" else sample.mass_unit
      let mass_g : ℚ :=
        if unit = "mg" then m / 1000
        else if unit = "kg" then m * 1000
        else m
      let mass_number : ℕ :=
        match (secondField isotope).bind (fun t => t.toNat?) with
        | some n => n
        | none => 197
      ((mass_g : ℝ) * (fraction : ℝ) * 6.022e23) / (mass_number : ℝ)

/-- Python `sep.join(strings)`. -/
def joinWith (sep : String) : List String → String
  | [] => ""
  | [x] => x
  | x :: xs => x ++ sep ++ joinWith sep xs

/-- One entry of the skipped-events list, mirroring the dict appended at
activation.py:220-227: event date (isoformat, or `'Unknown'` when unset),
location, power, duration with unit, and the human-readable reason naming
the missing location and the available ones. -/
structure SkippedIrradiation where
  date : String
  location : String
  power : ℚ
  time : ℚ
  time_unit : String
  reason : String
deriving DecidableEq

/-- Flux-configuration resolution for an event location, modelling
activation.py:201-211: exact dictionary lookup first, then the first
case-insensitive match in configuration order. -/
def find_flux_config (flux_configs : List (String × FluxConfiguration))
    (loc : String) : Option FluxConfiguration :=
  match dictGet flux_configs loc with
  | some fc => some fc
  | none =>
    match flux_configs.find? (fun p => pyLower p.1 = pyLower loc) with
    | some p => some p.2
    | none => none

/-- The skip record built for an event whose location resolves no flux
configuration (activation.py:220-227). -/
def skip_record (flux_configs : List (String × FluxConfiguration))
    (log : IrradiationLog) : SkippedIrradiation :=
  { date := log.date_iso.getD "Unknown"
    location := log.actual_location
    power := log.actual_power
    time := log.total_time
    time_unit := log.total_time_unit
    reason := "No flux configuration for location \"" ++ log.actual_location ++
      "\". Available: " ++ joinWith ", " (flux_configs.map (fun p => p.1)) }

/-- State threaded through the event loop of `calculate_activation`
(activation.py:196-266): the evolving inventory, the end instant of the last
*processed* event (`reference_time`, `none` until one is processed), and the
accumulated skip records. -/
structure SeqState where
  inventory : Inventory
  reference_time : Option ℚ
  skipped : List SkippedIrradiation

/-- One iteration of the event loop (activation.py:200-266, timeline emission
elided): an event without flux configuration is appended to the skipped list
and the loop continues; otherwise the event is processed and the reference
time advances to its end. -/
noncomputable def sequence_step (flux_configs : List (String × FluxConfiguration))
    (st : SeqState) (log : IrradiationLog) : SeqState :=
  match find_flux_config flux_configs log.actual_location with
  | none => { st with skipped := st.skipped ++ [skip_record flux_configs log] }
  | some fc =>
    let r := process_irradiation st.inventory log fc st.reference_time
    { st with inventory := r.1, reference_time := some r.2 }

/-- The result dict of `calculate_activation`, with `Option` fields for keys
present only on some paths (the all-skipped and exception dicts carry fewer
keys than the success dict; the optional timeline is elided as the
`track_timeline=False` configuration is modelled). -/
structure CalcResult where
  calculation_successful : Bool
  error_message : Option String
  isotopes : List (String × IsoActivity)
  stable_isotopes : List (String × StableEntry)
  total_activity_bq : ℝ
  reference_time : Option ℚ
  end_of_irradiation_time : Option ℚ
  decay_time_days : Option ℝ
  irradiation_hash : String
  skipped_irradiations : List SkippedIrradiation
  estimated_dose_rate_1ft : Option ℝ

/-- The error message of the total-skip failure (activation.py:270). -/
def ALL_SKIPPED_MSG : String :=
  "All irradiations were skipped. Please ensure flux configurations exist for the irradiation locations."

/-- Body of `calculate_activation` inside its `try` (activation.py:155-339,
cache lookup and timeline emission aside): resolve the composition (an empty
mapping raises `ValueError`, surfaced here as `.error`), build the initial
inventory, run the event loop, fail when every event was skipped, decay to
the wall-clock instant `now` when it lies past the last event's end, convert
to activities, and assemble the success dict including the skip list and the
dose-rate estimate. -/
noncomputable def calculate_activation_body (sample : Sample)
    (irradiation_logs : List IrradiationLog)
    (flux_configs : List (String × FluxConfiguration))
    (gamma_table : List (String × GammaLines))
    (min_activity_fraction : ℝ) (irr_hash : String) (now : ℚ) :
    Except String CalcResult :=
  let composition := get_sample_composition sample
  if composition = [] then
    .error ("No composition defined for sample " ++ sample.sample_id)
  else
    let inventory := initialize_inventory composition sample
    let final := irradiation_logs.foldl (sequence_step flux_configs)
      ⟨inventory, none, []⟩
    match final.reference_time with
    | none =>
      .ok { calculation_successful := false
            error_message := some ALL_SKIPPED_MSG
            isotopes := []
            stable_isotopes := []
            total_activity_bq := 0
            reference_time := none
            end_of_irradiation_time := none
            decay_time_days := none
            irradiation_hash := irr_hash
            skipped_irradiations := final.skipped
            estimated_dose_rate_1ft := none }
    | some ref =>
      let results :=
        if ref < now then
          let decay_to_current_s : ℚ := now - ref
          let current_inventory := decay_simple final.inventory ((decay_to_current_s : ℝ))
          (calculate_activities current_inventory min_activity_fraction, now,
            ((decay_to_current_s : ℝ) / 86400))
        else
          (calculate_activities final.inventory min_activity_fraction, ref, (0 : ℝ))
      .ok { calculation_successful := true
            error_message := none
            isotopes := results.1.isotopes
            stable_isotopes := results.1.stable_isotopes
            total_activity_bq := results.1.total_activity_bq
            reference_time := some results.2.1
            end_of_irradiation_time := some ref
            decay_time_days := some results.2.2
            irradiation_hash := irr_hash
            skipped_irradiations := final.skipped
            estimated_dose_rate_1ft :=
              some (estimate_dose_rate gamma_table results.1.isotopes) }

/-- The `except` clause of `calculate_activation` (activation.py:341-349):
any exception raised by the body becomes a structured failure dict with the
exception text, an empty isotope map, zero total and an empty hash — the
entry point itself never raises. -/
noncomputable def calculate_activation_fresh (sample : Sample)
    (irradiation_logs : List IrradiationLog)
    (flux_configs : List (String × FluxConfiguration))
    (gamma_table : List (String × GammaLines))
    (min_activity_fraction : ℝ) (irr_hash : String) (now : ℚ) : CalcResult :=
  match calculate_activation_body sample irradiation_logs flux_configs gamma_table
      min_activity_fraction irr_hash now with
  | .ok r => r
  | .error msg =>
    { calculation_successful := false
      error_message := some msg
      isotopes := []
      stable_isotopes := []
      total_activity_bq := 0
      reference_time := none
      end_of_irradiation_time := none
      decay_time_days := none
      irradiation_hash := ""
      skipped_irradiations := []
      estimated_dose_rate_1ft := none }

/-- The string images of one irradiation log's hash-relevant fields, as
interpolated by the f-string at activation.py:389-390: `str()` of the primary
key, location, Decimal power, Decimal duration, date, time-in and time-out.
Each `str()` image determines its underlying value, so a changed field is a
changed string. -/
structure LogRepr where
  pk : String
  location : String
  power : String
  total_time : String
  date : String
  time_in : String
  time_out : String

/-- The per-log component of the fingerprint pre-image
(activation.py:389-390): the seven field images joined by single bars. -/
def log_line (l : LogRepr) : String :=
  l.pk ++ "|" ++ l.location ++ "|" ++ l.power ++ "|" ++ l.total_time ++ "|" ++
    l.date ++ "|" ++ l.time_in ++ "|" ++ l.time_out

/-- Fingerprint of (composition, mass, event sequence), modelling
`generate_irradiation_hash` with a sample supplied (activation.py:351-393):
the version tag, the sorted `isotope:fraction` strings of the composition
joined by commas, the optional `MASS:value|unit` line, and one line per log,
all joined by double bars. The final `hashlib.sha256(...).hexdigest()` is
modelled as the identity on this pre-image (two fingerprints are equal
exactly when their pre-images are, the standard collision-freeness
idealization of a cryptographic hash). -/
def generate_irradiation_hash (comp_strings : List String)
    (mass : Option (String × String)) (logs : List LogRepr) : String :=
  let hash_data : List String :=
    ["VERSION:3", "COMPOSITION:" ++ joinWith "," comp_strings] ++
    (match mass with
     | some mu => ["MASS:" ++ mu.1 ++ "|" ++ mu.2]
     | none => []) ++
    logs.map log_line
  joinWith "||" hash_data

/-- The stored `ActivationResult` row read by the cache lookup
(activation.py:608-627), keyed upstream by (sample, irradiation_hash). -/
structure ActivationResultRecord where
  calculation_successful : Bool
  isotopic_inventory : List (String × IsoActivity)
  total_activity_bq : ℝ
  reference_time : ℚ
  estimated_dose_rate_1ft : Option ℝ

/-- The dict a cache hit returns (activation.py:615-623): success flag,
stored isotopes, total, reference time, the queried hash, the stored dose
rate, and the `from_cache` tag — and nothing else. -/
structure CachedView where
  calculation_successful : Bool
  isotopes : List (String × IsoActivity)
  total_activity_bq : ℝ
  reference_time : ℚ
  irradiation_hash : String
  estimated_dose_rate_1ft : Option ℝ
  from_cache : Bool

/-- Cache lookup, modelling `_get_cached_result` (activation.py:608-627): the
stored row at (sample_id, hash), converted to the reduced cached dict when it
recorded a successful calculation, `none` otherwise. -/
def get_cached_result (store : List ((String × String) × ActivationResultRecord))
    (sample_id irr_hash : String) : Option CachedView :=
  match store.find? (fun p => p.1.1 = sample_id ∧ p.1.2 = irr_hash) with
  | none => none
  | some p =>
    if p.2.calculation_successful then
      some { calculation_successful := true
             isotopes := p.2.isotopic_inventory
             total_activity_bq := p.2.total_activity_bq
             reference_time := p.2.reference_time
             irradiation_hash := irr_hash
             estimated_dose_rate_1ft := p.2.estimated_dose_rate_1ft
             from_cache := true }
    else none

/-- Return of the full entry point: either the reduced cached dict or a fresh
result dict (Python returns dicts of these two different shapes from the same
function). -/
inductive CalcOutput where
  | cached (v : CachedView)
  | fresh (r : CalcResult)

/-- The entry point `calculate_activation` with caching
(activation.py:139-349): compute the fingerprint, short-circuit to the cached
result when caching is requested and a successful entry exists for (sample,
fingerprint), and run the fresh pipeline otherwise. -/
noncomputable def calculate_activation
    (store : List ((String × String) × ActivationResultRecord))
    (use_cache : Bool) (sample : Sample)
    (comp_strings : List String) (mass_repr : Option (String × String))
    (log_reprs : List LogRepr)
    (irradiation_logs : List IrradiationLog)
    (flux_configs : List (String × FluxConfiguration))
    (gamma_table : List (String × GammaLines))
    (min_activity_fraction : ℝ) (now : ℚ) : CalcOutput :=
  let irr_hash := generate_irradiation_hash comp_strings mass_repr log_reprs
  if use_cache then
    match get_cached_result store sample.sample_id irr_hash with
    | some cached => .cached cached
    | none => .fresh (calculate_activation_fresh sample irradiation_logs flux_configs
        gamma_table min_activity_fraction irr_hash now)
  else
    .fresh (calculate_activation_fresh sample irradiation_logs flux_configs
      gamma_table min_activity_fraction irr_hash now)

/-- The keys of the success dict a fresh calculation returns
(activation.py:313-337; `timeline` is present with value `None` when tracking
is off). -/
def fresh_result_keys : List String :=
  ["isotopes", "stable_isotopes", "total_activity_bq", "reference_time",
   "end_of_irradiation_time", "decay_time_days", "irradiation_hash",
   "calculation_successful", "skipped_irradiations", "timeline",
   "estimated_dose_rate_1ft"]

/-- The keys of the dict a cache hit returns (activation.py:615-623). -/
def cached_result_keys : List String :=
  ["calculation_successful", "isotopes", "total_activity_bq", "reference_time",
   "irradiation_hash", "estimated_dose_rate_1ft", "from_cache"]

/-- Python datetime with its timezone-awareness: instants on a common axis in
seconds, plus the aware/naive flag. Comparing an aware and a naive datetime
raises `TypeError` in Python. -/
structure PyDateTime where
  aware : Bool
  t : ℚ

/-- Comparison `a < b` of two Python datetimes: a Boolean for two datetimes
of like awareness, a `TypeError` otherwise. -/
def datetime_lt (a b : PyDateTime) : Except String Bool :=
  if a.aware = b.aware then .ok (decide (a.t < b.t))
  else .error "TypeError: cannot compare offset-naive and offset-aware datetimes"

/-- The result dict of `decay_to_date` (activation.py:593-606 and the error
dicts at 503-541), with `Option` fields for keys present only on some
paths. -/
structure DecayToDateResult where
  success : Bool
  error : Option String := none
  target_date : Option ℚ := none
  last_irradiation_date : Option ℚ := none
  decay_time_seconds : Option ℤ := none
  decay_time_days : Option ℝ := none
  inventory : Inventory := []
  activities : Option ActivityResults := none
  total_activity_bq : Option ℝ := none
  estimated_dose_rate_1ft : Option ℝ := none

/-- What a public entry point does at its boundary: return a (structured)
result, or let an exception escape. -/
inductive DecayToDateOutcome where
  | ret (r : DecayToDateResult)
  | raised (msg : String)

/-- The arbitrary-date query, modelling `decay_to_date`
(activation.py:464-606), which (unlike `calculate_activation`) has no
`try/except` around its body: reject an empty history; run the full
activation (uncached, untracked) and convert its failure to a structured
error — note the source reads the missing `'error'` key of the failure dict,
so the message falls back to `'Activation calculation failed'`; read
`results['reference_time']` as "the last irradiation"; compare the target
against it (a `TypeError` on an aware/naive mismatch escapes, and a target
before it is rejected as "before last irradiation"); then rebuild the atom
inventory from the reported activities via N = A/(ln 2 / t½), restore stable
parents from the composition, decay by the truncated number of seconds, and
assemble activities and the dose-rate estimate. -/
noncomputable def decay_to_date (sample : Sample) (target_date : PyDateTime)
    (irradiation_logs : List IrradiationLog)
    (flux_configs : List (String × FluxConfiguration))
    (gamma_table : List (String × GammaLines))
    (min_activity_fraction : ℝ) (now : ℚ) : DecayToDateOutcome :=
  if irradiation_logs = [] then
    .ret { success := false
           error := some "Sample has no irradiation history"
           target_date := some target_date.t }
  else
    let results := calculate_activation_fresh sample irradiation_logs flux_configs
      gamma_table min_activity_fraction "" now
    if results.calculation_successful = false then
      .ret { success := false
             error := some "Activation calculation failed"
             target_date := some target_date.t }
    else
      match results.reference_time with
      | none => .raised "KeyError: reference_time"
      | some last =>
        match datetime_lt target_date ⟨true, last⟩ with
        | .error msg => .raised msg
        | .ok true =>
          .ret { success := false
                 error := some ("Target date (" ++ toString target_date.t ++
                   ") is before last irradiation (" ++ toString last ++ ")")
                 target_date := some target_date.t
                 last_irradiation_date := some last }
        | .ok false =>
          let decay_time_seconds : ℤ := ⌊target_date.t - last⌋
          let decay_time_days : ℝ := (decay_time_seconds : ℝ) / 86400
          let inv0 : Inventory := results.isotopes.foldl (fun inv p =>
            if 0 < p.2.half_life_s ∧ 0 < p.2.activity_bq then
              let decay_constant : ℝ := Real.log 2 / ((p.2.half_life_s : ℚ) : ℝ)
              dset inv p.1 (p.2.activity_bq / decay_constant)
            else if 0 < p.2.activity_bq then dset inv p.1 0
            else inv) []
          let composition := get_sample_composition sample
          let final_inventory : Inventory := composition.foldl (fun inv ep =>
            ep.2.foldl (fun inv2 ip =>
              if (dictGet inv2 ip.1).isSome then inv2
              else dset inv2 ip.1 (calculate_initial_atoms sample ep.1 ip.1 ip.2))
              inv) inv0
          let decayed_inventory := decay_simple final_inventory
            ((decay_time_seconds : ℝ))
          let activities := calculate_activities decayed_inventory
            min_activity_fraction
          .ret { success := true
                 target_date := some target_date.t
                 last_irradiation_date := some last
                 decay_time_seconds := some decay_time_seconds
                 decay_time_days := some decay_time_days
                 inventory := decayed_inventory
                 activities := some activities
                 total_activity_bq := some activities.total_activity_bq
                 estimated_dose_rate_1ft :=
                   some (estimate_dose_rate gamma_table activities.isotopes) }


lemma activities_pass_total (st : List (String × IsoActivity) × List (String × StableEntry) × ℝ)
    (p : String × ℝ) : (activities_pass st p).2.2 = st.2.2 + entryActivity p := by
  unfold activities_pass entryActivity
  rcases le_or_lt p.2 0 with h | h
  · simp [h]
  · simp only [if_neg (not_le.mpr h)]
    cases hl : getHalfLife p.1 with
    | none => simp
    | some v =>
      cases v with
      | stable => simp
      | secs s =>
        by_cases hs : s = 0
        · simp [hs]
        · simp only [if_neg hs]
          by_cases ha : 0 < ((LAMBDA_LN2 : ℝ) / (s : ℝ)) * p.2
          · simp [ha]
          · simp [ha]

lemma activities_foldl_total (l : List (String × ℝ))
    (st : List (String × IsoActivity) × List (String × StableEntry) × ℝ) :
    (l.foldl activities_pass st).2.2 = st.2.2 + (l.map entryActivity).sum := by
  induction l generalizing st with
  | nil => simp
  | cons p rest ih =>
    simp only [List.foldl_cons, List.map_cons, List.sum_cons, ih, activities_pass_total]
    ring


lemma mem_append_singleton {α : Type} {q e : α} {l : List α}
    (hq : q ∈ l ++ [e]) : q ∈ l ∨ q = e := by
  rcases List.mem_append.mp hq with h1 | h2
  · exact Or.inl h1
  · exact Or.inr (List.mem_singleton.mp h2)

lemma activities_pass_stable_zero
    (st : List (String × IsoActivity) × List (String × StableEntry) × ℝ)
    (p : String × ℝ) (hst : ∀ q ∈ st.2.1, q.2.activity_bq = 0) :
    ∀ q ∈ (activities_pass st p).2.1, q.2.activity_bq = 0 := by
  unfold activities_pass
  rcases le_or_lt p.2 0 with h | h
  · simpa [h] using hst
  · simp only [if_neg (not_le.mpr h)]
    cases hl : getHalfLife p.1 with
    | none =>
      intro q hq
      rcases mem_append_singleton hq with h1 | h2
      · exact hst q h1
      · rw [h2]
    | some v =>
      cases v with
      | stable =>
        intro q hq
        rcases mem_append_singleton hq with h1 | h2
        · exact hst q h1
        · rw [h2]
      | secs s =>
        by_cases hs : s = 0
        · simp only [hs, if_pos rfl]
          intro q hq
          rcases mem_append_singleton hq with h1 | h2
          · exact hst q h1
          · rw [h2]
        · simp only [if_neg hs]
          by_cases ha : 0 < ((LAMBDA_LN2 : ℝ) / (s : ℝ)) * p.2
          · simpa [ha] using hst
          · simpa [ha] using hst


/-- Shape of one reported radioactive entry before filtering: a known
non-stable nonzero half-life, positive atoms, and activity = (LAMBDA_LN2/h)·N. -/
def radio_entry_ok (q : String × IsoActivity) : Prop :=
  ∃ h : ℚ, getHalfLife q.1 = some (.secs h) ∧ h ≠ 0 ∧ 0 < q.2.atoms ∧
    q.2.activity_bq = ((LAMBDA_LN2 : ℝ) / (h : ℝ)) * q.2.atoms

/-- Shape of one reported radioactive entry after filtering: as before, and
its recorded activity fraction passed the caller's minimum. -/
def reported_entry_ok (minF : ℝ) (q : String × IsoActivity) : Prop :=
  radio_entry_ok q ∧ minF ≤ q.2.fraction

/-- Every isotope in the stable bucket is reported with zero activity. -/
def stableAllZero (r : ActivityResults) : Prop :=
  ∀ q ∈ r.stable_isotopes, q.2.activity_bq = 0

/-- Every reported radioactive isotope follows activity = λ·N and passed the
minimum-fraction filter. -/
def reportedOk (minF : ℝ) (r : ActivityResults) : Prop :=
  ∀ q ∈ r.isotopes, reported_entry_ok minF q

lemma activities_pass_radio_ok
    (st : List (String × IsoActivity) × List (String × StableEntry) × ℝ)
    (p : String × ℝ) (hst : ∀ q ∈ st.1, radio_entry_ok q) :
    ∀ q ∈ (activities_pass st p).1, radio_entry_ok q := by
  unfold activities_pass
  rcases le_or_lt p.2 0 with h | h
  · simpa [h] using hst
  · simp only [if_neg (not_le.mpr h)]
    cases hl : getHalfLife p.1 with
    | none => simpa using hst
    | some v =>
      cases v with
      | stable => simpa using hst
      | secs s =>
        by_cases hs : s = 0
        · simpa [hs] using hst
        · simp only [if_neg hs]
          by_cases ha : 0 < ((LAMBDA_LN2 : ℝ) / (s : ℝ)) * p.2
          · simp only [if_pos ha]
            intro q hq
            rcases mem_append_singleton hq with h1 | h2
            · exact hst q h1
            · rw [h2]
              exact ⟨s, hl, hs, h, rfl⟩
          · simpa [ha] using hst


lemma foldl_preserves {α β : Type} (f : β → α → β) (P : β → Prop)
    (hstep : ∀ b a, P b → P (f b a)) :
    ∀ (l : List α) (b : β), P b → P (l.foldl f b) := by
  intro l
  induction l with
  | nil => intro b hb; simpa using hb
  | cons a rest ih =>
    intro b hb
    simpa using ih (f b a) (hstep b a hb)

lemma activities_filter_ok (minF total : ℝ)
    (acts : List (String × IsoActivity)) (hacts : ∀ q ∈ acts, radio_entry_ok q) :
    ∀ q ∈ acts.foldl (fun acc q =>
        let fraction : ℝ := if 0 < total then q.2.activity_bq / total else 0
        if minF ≤ fraction then acc ++ [(q.1, { q.2 with fraction := fraction })]
        else acc) [],
      reported_entry_ok minF q := by
  have main : ∀ (l : List (String × IsoActivity)) (acc : List (String × IsoActivity)),
      (∀ q ∈ l, radio_entry_ok q) → (∀ q ∈ acc, reported_entry_ok minF q) →
      ∀ q ∈ l.foldl (fun acc q =>
          let fraction : ℝ := if 0 < total then q.2.activity_bq / total else 0
          if minF ≤ fraction then acc ++ [(q.1, { q.2 with fraction := fraction })]
          else acc) acc,
        reported_entry_ok minF q := by
    intro l
    induction l with
    | nil => intro acc _ hacc; simpa using hacc
    | cons a rest ih =>
      intro acc hl hacc
      simp only [List.foldl_cons]
      refine ih _ (fun q hq => hl q (List.mem_cons_of_mem _ hq)) ?_
      by_cases hf : minF ≤ (if 0 < total then a.2.activity_bq / total else 0)
      · simp only [if_pos hf]
        intro q hq
        rcases mem_append_singleton hq with h1 | h2
        · exact hacc q h1
        · rw [h2]
          have ha : radio_entry_ok a := hl a (List.mem_cons_self a rest)
          obtain ⟨s, hs1, hs2, hs3, hs4⟩ := ha
          exact ⟨⟨s, hs1, hs2, hs3, hs4⟩, hf⟩
      · simpa [hf] using hacc
  exact main acts [] hacts (by simp)


/-- C8: the activity calculation reports activity = λ·N for every non-stable
isotope with positive atoms, reports stable isotopes separately with zero
activity, and applies the minimum-activity-fraction filter only after the
unfiltered total has been computed: the reported total equals the sum of
`entryActivity` over every inventory entry, whatever the filter threshold. -/
theorem activities_total_unfiltered (inv : Inventory) (minF : ℝ) :
    (calculate_activities inv minF).total_activity_bq = (inv.map entryActivity).sum ∧
    stableAllZero (calculate_activities inv minF) ∧
    reportedOk minF (calculate_activities inv minF) := by
  unfold calculate_activities
  refine ⟨?_, ?_, ?_⟩
  · simpa using activities_foldl_total inv ([], [], 0)
  · intro q hq
    have base : ∀ (st : List (String × IsoActivity) × List (String × StableEntry) × ℝ),
        (∀ r ∈ st.2.1, r.2.activity_bq = 0) →
        ∀ r ∈ (inv.foldl activities_pass st).2.1, r.2.activity_bq = 0 :=
      fun st h => foldl_preserves activities_pass
        (fun st => ∀ r ∈ st.2.1, r.2.activity_bq = 0)
        (fun b a hb => activities_pass_stable_zero b a hb) inv st h
    exact base ([], [], 0) (by simp) q hq
  · intro q hq
    have hacts : ∀ r ∈ (inv.foldl activities_pass ([], [], 0)).1, radio_entry_ok r :=
      foldl_preserves activities_pass (fun st => ∀ r ∈ st.1, radio_entry_ok r)
        (fun b a hb => activities_pass_radio_ok b a hb) inv ([], [], 0) (by simp)
    exact activities_filter_ok minF (inv.foldl activities_pass ([], [], 0)).2.2
      (inv.foldl activities_pass ([], [], 0)).1 hacts q hq

/-- C8 witness: the theorem applied to the concrete one-isotope inventory
`Au-198 ↦ 1` with threshold `0`. -/
theorem activities_total_unfiltered_witness :
    (calculate_activities [("Au-198", (1 : ℝ))] 0).total_activity_bq
      = ([(("Au-198" : String), (1 : ℝ))].map entryActivity).sum :=
  (activities_total_unfiltered [("Au-198", 1)] 0).1


lemma dictGet_mem {α : Type} {l : List (String × α)} {k : String} {v : α}
    (h : dictGet l k = some v) : (k, v) ∈ l := by
  induction l with
  | nil => simp [dictGet] at h
  | cons p rest ih =>
    by_cases hk : p.1 = k
    · rw [dictGet, if_pos hk] at h
      obtain rfl : p.2 = v := Option.some.inj h
      exact hk ▸ (by exact List.mem_cons_self p rest)
    · rw [dictGet, if_neg hk] at h
      exact List.mem_cons_of_mem p (ih h)

lemma table_sigma_nonneg : ∀ e ∈ SIMPLE_CROSS_SECTIONS, ∀ r ∈ e.2, 0 ≤ r.2.sigma := by
  intro e he r hr
  fin_cases he <;> fin_cases hr <;> norm_num


lemma getCrossSectionData_sigma_nonneg {iso : String} {q : ℚ} {pr : String}
    {hl : HalfLife} (h : getCrossSectionData iso = some (q, pr, hl)) : 0 ≤ q := by
  unfold getCrossSectionData at h
  cases h1 : dictGet SIMPLE_CROSS_SECTIONS (headField iso) with
  | none => simp only [h1] at h; exact absurd h (by simp)
  | some isos =>
    simp only [h1] at h
    cases h2 : dictGet isos iso with
    | none => simp only [h2] at h; exact absurd h (by simp)
    | some e =>
      simp only [h2, Option.some.injEq, Prod.mk.injEq] at h
      obtain ⟨rfl, -, -⟩ := h
      exact table_sigma_nonneg _ (dictGet_mem h1) _ (dictGet_mem h2)



/-- Every atom count of the inventory is non-negative. -/
def invNonneg (inv : Inventory) : Prop := ∀ p ∈ inv, 0 ≤ p.2

lemma dictGet_nonneg {inv : Inventory} {k : String} {v : ℝ}
    (hinv : invNonneg inv) (h : dictGet inv k = some v) : 0 ≤ v :=
  hinv _ (dictGet_mem h)

lemma dset_nonneg {inv : Inventory} {k : String} {v : ℝ}
    (hinv : invNonneg inv) (hv : 0 ≤ v) : invNonneg (dset inv k v) := by
  induction inv with
  | nil => intro p hp; simp [dset] at hp; rw [hp]; exact hv
  | cons a rest ih =>
    intro p hp
    rw [dset] at hp
    by_cases hk : a.1 = k
    · rw [if_pos hk] at hp
      rcases List.mem_cons.mp hp with h1 | h2
      · rw [h1]; exact hv
      · exact hinv p (List.mem_cons_of_mem a h2)
    · rw [if_neg hk] at hp
      rcases List.mem_cons.mp hp with h1 | h2
      · exact h1 ▸ hinv a (List.mem_cons_self a rest)
      · exact ih (fun r hr => hinv r (List.mem_cons_of_mem a hr)) p h2

lemma LAMBDA_LN2_real_pos : (0 : ℝ) < ((LAMBDA_LN2 : ℚ) : ℝ) := by
  norm_num [LAMBDA_LN2]

lemma activate_write_nonneg {acc : Inventory} (hacc : invNonneg acc)
    {product target : String} {np n_atoms : ℝ} (hnp : 0 ≤ np) :
    invNonneg (dset (match dictGet acc product with
      | some cur => dset acc product (cur + np)
      | none => dset acc product np) target (max 0 (n_atoms - np))) := by
  have hacc1 : invNonneg (match dictGet acc product with
      | some cur => dset acc product (cur + np)
      | none => dset acc product np) := by
    cases hg : dictGet acc product with
    | some cur => exact dset_nonneg hacc (add_nonneg (dictGet_nonneg hacc hg) hnp)
    | none => exact dset_nonneg hacc hnp
  exact dset_nonneg hacc1 (le_max_left 0 _)

lemma activate_step_nonneg {flux time_s : ℝ} (hflux : 0 ≤ flux) (ht : 0 ≤ time_s)
    {acc : Inventory} (hacc : invNonneg acc) {target : String} {n_atoms : ℝ}
    (hn : 0 ≤ n_atoms) : invNonneg (activate_step flux time_s acc target n_atoms) := by
  unfold activate_step
  cases hxs : getCrossSectionData target with
  | none => exact hacc
  | some d =>
    obtain ⟨sigma_barns, product, hl⟩ := d
    have hsigma : (0 : ℝ) ≤ (sigma_barns : ℝ) := by
      exact_mod_cast getCrossSectionData_sigma_nonneg hxs
    have hrate : 0 ≤ (sigma_barns : ℝ) * 1e-24 * flux * n_atoms := by
      have h0 : (0 : ℝ) ≤ (sigma_barns : ℝ) * 1e-24 := by positivity
      exact mul_nonneg (mul_nonneg h0 hflux) hn
    cases hl with
    | stable =>
      dsimp only
      exact activate_write_nonneg hacc (mul_nonneg hrate ht)
    | secs h =>
      dsimp only
      by_cases hh : 0 < h
      · rw [if_pos hh]
        have hdc : (0 : ℝ) < (LAMBDA_LN2 : ℝ) / (h : ℝ) :=
          div_pos LAMBDA_LN2_real_pos (by exact_mod_cast hh)
        have hexp : Real.exp (-((LAMBDA_LN2 : ℝ) / (h : ℝ) * time_s)) ≤ 1 := by
          rw [Real.exp_le_one_iff]
          have h1 : 0 ≤ (LAMBDA_LN2 : ℝ) / (h : ℝ) * time_s := mul_nonneg hdc.le ht
          linarith
        exact activate_write_nonneg hacc
          (mul_nonneg (div_nonneg hrate hdc.le) (by linarith))
      · rw [if_neg hh]
        exact activate_write_nonneg hacc (mul_nonneg hrate ht)


lemma activate_foldl_nonneg {flux time_s : ℝ} (hflux : 0 ≤ flux) (ht : 0 ≤ time_s) :
    ∀ (l : List (String × ℝ)) (acc : Inventory), (∀ p ∈ l, 0 ≤ p.2) → invNonneg acc →
    invNonneg (l.foldl (fun acc p => activate_step flux time_s acc p.1 p.2) acc) := by
  intro l
  induction l with
  | nil => intro acc _ hacc; simpa using hacc
  | cons a rest ih =>
    intro acc hl hacc
    simp only [List.foldl_cons]
    exact ih _ (fun p hp => hl p (List.mem_cons_of_mem a hp))
      (activate_step_nonneg hflux ht hacc (hl a (List.mem_cons_self a rest)))

lemma decay_step_nonneg (time_s : ℝ) (iso : String) {n : ℝ} (hn : 0 ≤ n) :
    0 ≤ decay_step time_s iso n := by
  unfold decay_step
  cases hd : getCrossSectionData iso with
  | none => exact hn
  | some d =>
    obtain ⟨s, pr, hl⟩ := d
    cases hl with
    | stable => exact hn
    | secs h =>
      dsimp only
      by_cases hh : h = 0
      · rw [if_pos hh]; exact hn
      · rw [if_neg hh]
        exact mul_nonneg hn (Real.exp_nonneg _)

/-- C9: both inventory operations preserve the non-negativity invariant — for
any inventory of non-negative (finite real) counts, a non-negative flux and a
non-negative duration, the activation step (which clamps the depleted target
at zero) and the simple decay step produce only non-negative counts. -/
theorem inventory_ops_preserve_nonneg (inv : Inventory) (flux time_s : ℝ)
    (hflux : 0 ≤ flux) (ht : 0 ≤ time_s) (hinv : invNonneg inv) :
    invNonneg (activate_inventory inv flux time_s) ∧
    invNonneg (decay_simple inv time_s) := by
  constructor
  · unfold activate_inventory
    exact activate_foldl_nonneg hflux ht inv inv hinv hinv
  · unfold decay_simple
    intro p hp
    obtain ⟨q, hq, rfl⟩ := List.mem_map.mp hp
    exact decay_step_nonneg _ _ (hinv q hq)

/-- C9 witness: the theorem applied to the inventory `Au-197 ↦ 1` at flux 1
for 2 seconds, every hypothesis discharged concretely. -/
theorem inventory_ops_preserve_nonneg_witness :
    (0 : ℝ) ≤ 1 ∧ (0 : ℝ) ≤ 2 ∧ invNonneg [(("Au-197" : String), (1 : ℝ))] ∧
    (invNonneg (activate_inventory [("Au-197", 1)] 1 2) ∧
      invNonneg (decay_simple [("Au-197", 1)] 2)) :=
  ⟨by norm_num, by norm_num,
    by intro p hp; simp only [List.mem_singleton] at hp; subst hp; norm_num,
    inventory_ops_preserve_nonneg [("Au-197", 1)] 1 2 (by norm_num) (by norm_num)
      (by intro p hp; simp only [List.mem_singleton] at hp; subst hp; norm_num)⟩


lemma seq_foldl_spec (flux_configs : List (String × FluxConfiguration)) :
    ∀ (logs : List IrradiationLog) (st : SeqState),
    (logs.foldl (sequence_step flux_configs) st).skipped
        = st.skipped ++ (logs.filter
            (fun l => (find_flux_config flux_configs l.actual_location).isNone)).map
            (skip_record flux_configs) ∧
    ((logs.foldl (sequence_step flux_configs) st).reference_time = none ↔
      st.reference_time = none ∧
        logs.filter (fun l => (find_flux_config flux_configs l.actual_location).isSome)
          = []) := by
  intro logs
  induction logs with
  | nil => intro st; simp
  | cons a rest ih =>
    intro st
    simp only [List.foldl_cons]
    cases hf : find_flux_config flux_configs a.actual_location with
    | none =>
      have hstep : sequence_step flux_configs st a
          = { st with skipped := st.skipped ++ [skip_record flux_configs a] } := by
        unfold sequence_step
        rw [hf]
      obtain ⟨ih1, ih2⟩ := ih (sequence_step flux_configs st a)
      constructor
      · rw [ih1, hstep]
        simp [List.filter_cons, hf]
      · rw [ih2, hstep]
        simp [List.filter_cons, hf]
    | some fc =>
      have hstep : sequence_step flux_configs st a
          = { st with
              inventory := (process_irradiation st.inventory a fc st.reference_time).1,
              reference_time :=
                some (process_irradiation st.inventory a fc st.reference_time).2 } := by
        unfold sequence_step
        rw [hf]
      obtain ⟨ih1, ih2⟩ := ih (sequence_step flux_configs st a)
      constructor
      · rw [ih1, hstep]
        simp [List.filter_cons, hf]
      · rw [ih2, hstep]
        simp [List.filter_cons, hf]


/-- C3: skip-and-continue. Provided the sample's composition resolves, an
event whose location matches no flux configuration (exact first, then
case-insensitive) is recorded in the skipped list with its reason while the
rest are processed: if at least one event has a configuration the calculation
succeeds and the skipped list is exactly the configuration-less events in
order; if every event is skipped the result is unsuccessful, carries the
descriptive all-skipped error, and lists every event as skipped. -/
theorem skip_and_continue (sample : Sample) (logs : List IrradiationLog)
    (flux_configs : List (String × FluxConfiguration))
    (gamma_table : List (String × GammaLines)) (minF : ℝ) (irr_hash : String)
    (now : ℚ) (hcomp : get_sample_composition sample ≠ []) :
    (logs.filter (fun l => (find_flux_config flux_configs l.actual_location).isSome)
        = [] →
      (calculate_activation_fresh sample logs flux_configs gamma_table minF irr_hash
        now).calculation_successful = false ∧
      (calculate_activation_fresh sample logs flux_configs gamma_table minF irr_hash
        now).error_message = some ALL_SKIPPED_MSG ∧
      (calculate_activation_fresh sample logs flux_configs gamma_table minF irr_hash
        now).skipped_irradiations = logs.map (skip_record flux_configs)) ∧
    (logs.filter (fun l => (find_flux_config flux_configs l.actual_location).isSome)
        ≠ [] →
      (calculate_activation_fresh sample logs flux_configs gamma_table minF irr_hash
        now).calculation_successful = true ∧
      (calculate_activation_fresh sample logs flux_configs gamma_table minF irr_hash
        now).error_message = none ∧
      (calculate_activation_fresh sample logs flux_configs gamma_table minF irr_hash
        now).skipped_irradiations = (logs.filter
          (fun l => (find_flux_config flux_configs l.actual_location).isNone)).map
          (skip_record flux_configs)) := by
  obtain ⟨hsk, href⟩ := seq_foldl_spec flux_configs logs
    ⟨initialize_inventory (get_sample_composition sample) sample, none, []⟩
  unfold calculate_activation_fresh calculate_activation_body
  rw [if_neg hcomp]
  dsimp only
  constructor
  · intro hall
    have hnone : (logs.foldl (sequence_step flux_configs)
        ⟨initialize_inventory (get_sample_composition sample) sample, none, []⟩).reference_time
          = none := href.mpr ⟨rfl, hall⟩
    rw [hnone]
    refine ⟨rfl, rfl, ?_⟩
    have hfull : logs.filter
        (fun l => (find_flux_config flux_configs l.actual_location).isNone) = logs := by
      rw [List.filter_eq_self]
      intro a ha
      have hnot := (List.filter_eq_nil_iff.mp hall) a ha
      simp only [Option.isNone_iff_eq_none]
      simp only [Option.isSome_iff_exists] at hnot
      cases hcase : find_flux_config flux_configs a.actual_location with
      | none => rfl
      | some fc => exact absurd ⟨fc, hcase⟩ hnot
    simp only [hsk, hfull, List.nil_append]
  · intro hsome
    have hnn : (logs.foldl (sequence_step flux_configs)
        ⟨initialize_inventory (get_sample_composition sample) sample, none, []⟩).reference_time
          ≠ none := by
      intro hzero
      exact hsome (href.mp hzero).2
    cases hcase : (logs.foldl (sequence_step flux_configs)
        ⟨initialize_inventory (get_sample_composition sample) sample, none, []⟩).reference_time with
    | none => exact absurd hcase hnn
    | some ref =>
      dsimp only
      refine ⟨rfl, rfl, ?_⟩
      simpa using hsk


/-- Concrete gold-foil sample used by the concrete instantiations below:
1 g of material type `Au`, no explicit composition rows. -/
def auSample : Sample :=
  { sample_id := "AU-1"
    mass := some 1
    mass_unit := "g"
    composition_elements := []
    material_type := "Au" }

/-- Concrete flux configuration for the `Core` location: 200 kW reference,
thermal flux 2.5e12, no fast or intermediate flux. -/
def coreConfig : FluxConfiguration :=
  { reference_power := 200
    thermal_flux := 2.5e12
    fast_flux := 0
    intermediate_flux := none }

/-- Concrete irradiation: 4 hours in `Core` at 200 kW, running from t = 0 s
to t = 14400 s on the common time axis. -/
def auLog : IrradiationLog :=
  { actual_location := "Core"
    actual_power := 200
    total_time := 4
    total_time_unit := "hr"
    date_iso := some "2024-01-15"
    start_s := 0
    end_s := 14400 }

/-- The same irradiation recorded at a location with no flux configuration. -/
def poolLog : IrradiationLog :=
  { actual_location := "Pool"
    actual_power := 200
    total_time := 4
    total_time_unit := "hr"
    date_iso := some "2024-01-15"
    start_s := 0
    end_s := 14400 }

/-- C3 witness: the theorem applied to the gold sample and the single
configuration-less `Pool` event against an empty configuration set — the
composition hypothesis discharged by evaluation. -/
theorem skip_and_continue_witness :
    get_sample_composition auSample ≠ [] ∧
    (([poolLog].filter
        (fun l => (find_flux_config [] l.actual_location).isSome) = [] →
      (calculate_activation_fresh auSample [poolLog] [] [] 0.001 "h"
        0).calculation_successful = false ∧
      (calculate_activation_fresh auSample [poolLog] [] [] 0.001 "h"
        0).error_message = some ALL_SKIPPED_MSG ∧
      (calculate_activation_fresh auSample [poolLog] [] [] 0.001 "h"
        0).skipped_irradiations = [poolLog].map (skip_record [])) ∧
    ([poolLog].filter
        (fun l => (find_flux_config [] l.actual_location).isSome) ≠ [] →
      (calculate_activation_fresh auSample [poolLog] [] [] 0.001 "h"
        0).calculation_successful = true ∧
      (calculate_activation_fresh auSample [poolLog] [] [] 0.001 "h"
        0).error_message = none ∧
      (calculate_activation_fresh auSample [poolLog] [] [] 0.001 "h"
        0).skipped_irradiations = ([poolLog].filter
          (fun l => (find_flux_config [] l.actual_location).isNone)).map
          (skip_record []))) :=
  ⟨by simp [get_sample_composition, auSample, get_natural_isotopes, dictGet,
      pyCapitalize, pyStrip, upperChar, lowerChar, SIMPLE_CROSS_SECTIONS],
    skip_and_continue auSample [poolLog] [] [] 0.001 "h" 0
      (by simp [get_sample_composition, auSample, get_natural_isotopes, dictGet,
        pyCapitalize, pyStrip, upperChar, lowerChar, SIMPLE_CROSS_SECTIONS])⟩


lemma dset_ne_nil {α : Type} (l : List (String × α)) (k : String) (v : α) :
    dset l k v ≠ [] := by
  cases l with
  | nil => simp [dset]
  | cons a rest =>
    rw [dset]
    by_cases hk : a.1 = k
    · simp [hk]
    · simp [hk]

lemma composition_step_ne_nil (acc : List (String × List (String × ℚ)))
    (comp : CompositionElement) : composition_step acc comp ≠ [] := by
  unfold composition_step
  by_cases h1 : (dictGet acc comp.element).isSome
  · simp only [if_pos h1]
    by_cases h2 : comp.isotope ≠ "" ∧ pyLower comp.isotope ∉ ["natural", "nat", ""]
    · simp only [if_pos h2]; exact dset_ne_nil _ _ _
    · simp only [if_neg h2]; exact dset_ne_nil _ _ _
  · simp only [if_neg h1]
    by_cases h2 : comp.isotope ≠ "" ∧ pyLower comp.isotope ∉ ["natural", "nat", ""]
    · simp only [if_pos h2]; exact dset_ne_nil _ _ _
    · simp only [if_neg h2]; exact dset_ne_nil _ _ _

lemma composition_foldl_ne_nil :
    ∀ (l : List CompositionElement) (acc : List (String × List (String × ℚ))),
    acc ≠ [] → l.foldl composition_step acc ≠ [] := by
  intro l
  induction l with
  | nil => intro acc hacc; simpa using hacc
  | cons a rest ih =>
    intro acc _
    simp only [List.foldl_cons]
    exact ih _ (composition_step_ne_nil acc a)

/-- C10 (amended): the composition mapping is empty exactly when the sample
has neither composition rows nor a non-empty material-type string (an
unrecognized material type still yields the `Element-Unknown` placeholder),
and an empty mapping makes the calculation abort at once as a configuration
error: an unsuccessful result carrying the descriptive message and nothing
else. -/
theorem composition_empty_iff_no_inputs (sample : Sample)
    (logs : List IrradiationLog) (flux_configs : List (String × FluxConfiguration))
    (gamma_table : List (String × GammaLines)) (minF : ℝ) (irr_hash : String)
    (now : ℚ) :
    (get_sample_composition sample = [] ↔
      sample.composition_elements = [] ∧ sample.material_type = "") ∧
    (get_sample_composition sample = [] →
      calculate_activation_fresh sample logs flux_configs gamma_table minF irr_hash now
        = { calculation_successful := false
            error_message := some ("No composition defined for sample " ++ sample.sample_id)
            isotopes := []
            stable_isotopes := []
            total_activity_bq := 0
            reference_time := none
            end_of_irradiation_time := none
            decay_time_days := none
            irradiation_hash := ""
            skipped_irradiations := []
            estimated_dose_rate_1ft := none }) := by
  constructor
  · constructor
    · intro hempty
      unfold get_sample_composition at hempty
      by_cases hce : sample.composition_elements ≠ []
      · rw [if_pos hce] at hempty
        cases hl : sample.composition_elements with
        | nil => exact absurd hl hce
        | cons a rest =>
          rw [hl] at hempty
          simp only [List.foldl_cons] at hempty
          exact absurd hempty
            (composition_foldl_ne_nil rest _ (composition_step_ne_nil [] a))
      · rw [if_neg hce] at hempty
        by_cases hmt : sample.material_type ≠ ""
        · rw [if_pos hmt] at hempty
          exact absurd hempty (by simp)
        · exact ⟨not_ne_iff.mp hce, not_ne_iff.mp hmt⟩
    · intro ⟨h1, h2⟩
      unfold get_sample_composition
      rw [if_neg (by simpa using h1), if_neg (by simpa using h2)]
  · intro hempty
    unfold calculate_activation_fresh calculate_activation_body
    rw [if_pos hempty]

/-- Concrete sample with no composition rows and no material type. -/
def emptySample : Sample :=
  { sample_id := "E-1"
    mass := none
    mass_unit := ""
    composition_elements := []
    material_type := "" }

/-- C10 witness: the theorem applied to the concrete empty sample, the
implication's hypothesis discharged by evaluation. -/
theorem composition_empty_iff_no_inputs_witness :
    get_sample_composition emptySample = [] ∧
    calculate_activation_fresh emptySample [] [] [] 0.001 "h" 0
      = { calculation_successful := false
          error_message := some ("No composition defined for sample " ++ "E-1")
          isotopes := []
          stable_isotopes := []
          total_activity_bq := 0
          reference_time := none
          end_of_irradiation_time := none
          decay_time_days := none
          irradiation_hash := ""
          skipped_irradiations := []
          estimated_dose_rate_1ft := none } :=
  ⟨by simp [get_sample_composition, emptySample],
    (composition_empty_iff_no_inputs emptySample [] [] [] 0.001 "h" 0).2
      (by simp [get_sample_composition, emptySample])⟩

/-- Concrete sample whose material type `Zz` is recognized by no data source. -/
def zzSample : Sample :=
  { sample_id := "Z-1"
    mass := some 1
    mass_unit := "g"
    composition_elements := []
    material_type := "Zz" }

/-- C10 counterexample: a sample with an unrecognized material type and no
composition rows gets the non-empty placeholder mapping
`{Zz: {Zz-Unknown: 1.0}}` — not the empty mapping the claim asserts — and the
calculation proceeds to a successful result instead of aborting. -/
theorem unrecognized_material_not_empty :
    get_sample_composition zzSample = [("Zz", [("Zz-Unknown", 1)])] ∧
    (calculate_activation_fresh zzSample [auLog] [("Core", coreConfig)] [] 0.001 "h"
      1000000).calculation_successful = true := by
  constructor
  · simp [get_sample_composition, zzSample, get_natural_isotopes, dictGet,
      pyCapitalize, pyStrip, upperChar, lowerChar, SIMPLE_CROSS_SECTIONS]
  · unfold calculate_activation_fresh calculate_activation_body
    rw [if_neg (by
      simp [get_sample_composition, zzSample, get_natural_isotopes, dictGet,
        pyCapitalize, pyStrip, upperChar, lowerChar, SIMPLE_CROSS_SECTIONS])]
    dsimp only
    cases href : (List.foldl (sequence_step [("Core", coreConfig)])
        { inventory := initialize_inventory (get_sample_composition zzSample) zzSample,
          reference_time := none, skipped := [] } [auLog]).reference_time with
    | none =>
      exfalso
      have h2 := (seq_foldl_spec [("Core", coreConfig)] [auLog]
        ⟨initialize_inventory (get_sample_composition zzSample) zzSample, none, []⟩).2
      have h3 := (h2.mp href).2
      simp [find_flux_config, dictGet, auLog, List.filter_cons] at h3
    | some ref => rfl


/-- C2: `_decay_simple` looks an isotope up as a *target* in the
cross-section table (taking the half-life of its activation product), so the
radioactive product Au-198 — whose own half-life the engine's
`_get_half_life` knows — has no row and is carried through unchanged over
exactly one of its half-lives, while stable Au-197 (unknown half-life, to be
carried unchanged per the claim) is decayed by its product's half-life and
strictly decreases. The unchanged count is far outside the ±1% halving band,
whose upper edge 0.505·N sits strictly below N. -/
theorem decay_simple_ignores_product_half_life :
    invGet (decay_simple [("Au-198", (1e20 : ℝ))] ((2.6955 * 24 * 3600 : ℚ) : ℝ))
        "Au-198" = some 1e20 ∧
    (0.505 : ℝ) * 1e20 < 1e20 ∧
    (invGet (decay_simple [("Au-197", (1e20 : ℝ))] ((2.6955 * 24 * 3600 : ℚ) : ℝ))
        "Au-197").getD 0 < 1e20 := by
  have hau198 : getCrossSectionData "Au-198" = none := by
    simp [getCrossSectionData, SIMPLE_CROSS_SECTIONS, dictGet, headField]
  have hau197 : getCrossSectionData "Au-197"
      = some (98.65, "Au-198", .secs (2.6955 * 24 * 3600)) := by
    simp [getCrossSectionData, SIMPLE_CROSS_SECTIONS, dictGet, headField]
  refine ⟨?_, by norm_num, ?_⟩
  · simp [decay_simple, decay_step, hau198, invGet, dictGet]
  · have hval : (invGet (decay_simple [("Au-197", (1e20 : ℝ))]
        ((2.6955 * 24 * 3600 : ℚ) : ℝ)) "Au-197").getD 0
        = 1e20 * Real.exp (-(((LAMBDA_LN2 : ℚ) : ℝ) / ((2.6955 * 24 * 3600 : ℚ) : ℝ)
            * ((2.6955 * 24 * 3600 : ℚ) : ℝ))) := by
      simp [decay_simple, decay_step, hau197, invGet, dictGet]
      norm_num
    rw [hval]
    have harg : (0 : ℝ) < ((LAMBDA_LN2 : ℚ) : ℝ) / ((2.6955 * 24 * 3600 : ℚ) : ℝ)
        * ((2.6955 * 24 * 3600 : ℚ) : ℝ) := by
      apply mul_pos
      · exact div_pos LAMBDA_LN2_real_pos (by norm_num)
      · norm_num
    have hexp : Real.exp (-(((LAMBDA_LN2 : ℚ) : ℝ) / ((2.6955 * 24 * 3600 : ℚ) : ℝ)
        * ((2.6955 * 24 * 3600 : ℚ) : ℝ))) < 1 := by
      rw [Real.exp_lt_one_iff]
      linarith
    calc (1e20 : ℝ) * Real.exp (-(((LAMBDA_LN2 : ℚ) : ℝ) / ((2.6955 * 24 * 3600 : ℚ) : ℝ)
        * ((2.6955 * 24 * 3600 : ℚ) : ℝ))) < 1e20 * 1 := by
          exact mul_lt_mul_of_pos_left hexp (by norm_num)
      _ = 1e20 := by norm_num


/-- C1 helper: the Fe-56 step produces 2.59 atoms of Fe-57 (stable product,
linear production) and depletes Fe-56 to 997.41. -/
lemma fe56_step :
    activate_step 1e21 1 [("Fe-56", (1000 : ℝ)), ("Fe-57", 1000)] "Fe-56" 1000
      = [("Fe-56", 997.41), ("Fe-57", 1002.59)] := by
  have hfe56 : getCrossSectionData "Fe-56" = some (2.59, "Fe-57", .stable) := by
    simp [getCrossSectionData, SIMPLE_CROSS_SECTIONS, dictGet, headField]
  rw [activate_step, hfe56]
  dsimp only
  norm_num [dictGet, dset]

/-- C1 helper: the Fe-57 step then produces 2.48 atoms of Fe-58 and assigns
Fe-57 from its *pre-step* count: max(0, 1000 − 2.48), clobbering the
accumulated 1002.59. -/
lemma fe57_step :
    activate_step 1e21 1 [("Fe-56", (997.41 : ℝ)), ("Fe-57", 1002.59)] "Fe-57" 1000
      = [("Fe-56", 997.41), ("Fe-57", 997.52), ("Fe-58", 2.48)] := by
  have hfe57 : getCrossSectionData "Fe-57" = some (2.48, "Fe-58", .stable) := by
    simp [getCrossSectionData, SIMPLE_CROSS_SECTIONS, dictGet, headField]
  rw [activate_step, hfe57]
  dsimp only
  norm_num [dictGet, dset]
  decide

/-- C1: in `_activate_inventory`, the target-depletion assignment
`new_inventory[target] = max(0, n_atoms - n_consumed)` is computed from the
*pre-step* count, so when the product of one target (Fe-56 → Fe-57) is itself
a later-iterated target (Fe-57 → Fe-58), the depletion assignment overwrites
the accumulated entry and the production added to Fe-57 is lost. On the
inventory `{Fe-56: 1000, Fe-57: 1000}` at flux 10²¹ for 1 s (both products
stable, so production is linear: 2.59 atoms of Fe-57 produced, 2.48 atoms of
Fe-57 consumed), the final Fe-57 count is 997.52 — not the
1000 + 2.59 = 1002.59 the claim's "adds exactly N_produced" demands, and not
even an increase. -/
theorem activation_overwrites_accumulated_product :
    invGet (activate_inventory [("Fe-56", (1000 : ℝ)), ("Fe-57", 1000)] 1e21 1)
        "Fe-57" = some 997.52 ∧
    (997.52 : ℝ) ≠ 1000 + 2.59 := by
  constructor
  · simp only [activate_inventory, List.foldl_cons, List.foldl_nil]
    rw [fe56_step, fe57_step]
    simp [invGet, dictGet]
  · norm_num


/-- Gamma-line data for Co-60 as the external nuclear-data source reports it:
two lines, 1173 keV at 99.85% and 1332 keV at 99.98% intensity (the repo's
own dose-rate test names exactly these lines). -/
def co60Gamma : GammaLines :=
  { intensities := [(99.85, 0), (99.98, 0)]
    energies := [(1173, 0), (1332, 0)] }

/-- A gamma table holding the Co-60 data. -/
def co60Table : List (String × GammaLines) := [("Co-60", co60Gamma)]

/-- A reported Co-60 entry with activity exactly 1 Ci. -/
def co60OneCi : IsoActivity :=
  { activity_bq := 3.7e10
    activity_ci := 1
    atoms := 1
    half_life_s := 5.27 * 365.25 * 24 * 3600
    fraction := 1 }

/-- C6: `_get_gamma_energies` computes the intensity-weighted *average* line
energy Σ(E·I)/Σ(I), about 1.2526 MeV for Co-60, not the per-decay total
Σ(E·I) ≈ 2.5030 MeV that the claim (and the repo's own
test_dose_rate_fix_verification.py) demand; consequently the dose-rate
estimate for a 1 Ci Co-60 source is 6 × 1 × the average — strictly below
K × activity × total energy. -/
theorem dose_rate_averages_not_sums :
    get_gamma_energies co60Table "Co-60"
      = some ((1173 * 99.85 + 1332 * 99.98) / (99.85 + 99.98) / 1000) ∧
    spec_total_gamma_energy_mev co60Gamma
      = (1173 * (99.85 / 100) + 1332 * (99.98 / 100)) / 1000 ∧
    get_gamma_energies co60Table "Co-60"
      ≠ some (spec_total_gamma_energy_mev co60Gamma) ∧
    estimate_dose_rate co60Table [("Co-60", co60OneCi)]
      = 6 * 1 * (((1173 * 99.85 + 1332 * 99.98) / (99.85 + 99.98) / 1000 : ℚ) : ℝ) ∧
    estimate_dose_rate co60Table [("Co-60", co60OneCi)]
      < 6 * 1 * ((spec_total_gamma_energy_mev co60Gamma : ℚ) : ℝ) := by
  have hg : get_gamma_energies co60Table "Co-60"
      = some ((1173 * 99.85 + 1332 * 99.98) / (99.85 + 99.98) / 1000) := by
    simp [get_gamma_energies, co60Table, co60Gamma, dictGet]
    norm_num
  have hs : spec_total_gamma_energy_mev co60Gamma
      = (1173 * (99.85 / 100) + 1332 * (99.98 / 100)) / 1000 := by
    simp [spec_total_gamma_energy_mev, co60Gamma]
  have hd : estimate_dose_rate co60Table [("Co-60", co60OneCi)]
      = 6 * 1 * (((1173 * 99.85 + 1332 * 99.98) / (99.85 + 99.98) / 1000 : ℚ) : ℝ) := by
    simp only [estimate_dose_rate, List.foldl_cons, List.foldl_nil, hg]
    norm_num [co60OneCi]
  refine ⟨hg, hs, ?_, hd, ?_⟩
  · rw [hg, hs]
    intro hcontra
    have := Option.some.inj hcontra
    norm_num at this
  · rw [hd, hs]
    have hlt : ((1173 * 99.85 + 1332 * 99.98) / (99.85 + 99.98) / 1000 : ℚ)
        < ((1173 * (99.85 / 100) + 1332 * (99.98 / 100)) / 1000 : ℚ) := by norm_num
    have hcast : (((1173 * 99.85 + 1332 * 99.98) / (99.85 + 99.98) / 1000 : ℚ) : ℝ)
        < (((1173 * (99.85 / 100) + 1332 * (99.98 / 100)) / 1000 : ℚ) : ℝ) := by
      exact_mod_cast hlt
    nlinarith [hcast]


lemma str_left_cancel {P f g : String} (h : P ++ f = P ++ g) : f = g := by
  apply String.ext
  have hd := congrArg String.data h
  simp only [String.data_append] at hd
  exact List.append_cancel_left hd

lemma str_right_cancel {S f g : String} (h : f ++ S = g ++ S) : f = g := by
  apply String.ext
  have hd := congrArg String.data h
  simp only [String.data_append] at hd
  exact List.append_cancel_right hd

lemma joinWith_cons_of_ne_nil (sep a : String) {l : List String} (hl : l ≠ []) :
    joinWith sep (a :: l) = a ++ sep ++ joinWith sep l := by
  cases l with
  | nil => exact absurd rfl hl
  | cons b bs => rfl

lemma joinWith_inj_at (sep : String) :
    ∀ (A B : List String) (x y : String),
    joinWith sep (A ++ x :: B) = joinWith sep (A ++ y :: B) → x = y := by
  intro A
  induction A with
  | nil =>
    intro B x y h
    cases B with
    | nil => simpa [joinWith] using h
    | cons b bs =>
      rw [List.nil_append, List.nil_append,
        joinWith_cons_of_ne_nil sep x (by simp),
        joinWith_cons_of_ne_nil sep y (by simp)] at h
      exact str_right_cancel (str_right_cancel h)
  | cons a as ih =>
    intro B x y h
    rw [List.cons_append, List.cons_append,
      joinWith_cons_of_ne_nil sep a (by simp),
      joinWith_cons_of_ne_nil sep a (by simp)] at h
    exact ih B x y (str_left_cancel (by
      have h2 : a ++ (sep ++ joinWith sep (as ++ x :: B))
          = a ++ (sep ++ joinWith sep (as ++ y :: B)) := by
        simpa [String.append_assoc] using h
      exact str_left_cancel h2))


lemma log_line_ne_of_location {l : LogRepr} {v : String} (hv : v ≠ l.location) :
    log_line { l with location := v } ≠ log_line l := by
  intro h
  apply hv
  apply String.ext
  unfold log_line at h
  have hd := congrArg String.data h
  simp only [String.data_append, List.append_assoc] at hd
  replace hd := List.append_cancel_left hd
  replace hd := List.append_cancel_left hd
  exact List.append_cancel_right hd


lemma log_line_ne_of_power {l : LogRepr} {v : String} (hv : v ≠ l.power) :
    log_line { l with power := v } ≠ log_line l := by
  intro h
  apply hv
  apply String.ext
  unfold log_line at h
  have hd := congrArg String.data h
  simp only [String.data_append, List.append_assoc] at hd
  iterate 4 replace hd := List.append_cancel_left hd
  exact List.append_cancel_right hd

lemma log_line_ne_of_total_time {l : LogRepr} {v : String} (hv : v ≠ l.total_time) :
    log_line { l with total_time := v } ≠ log_line l := by
  intro h
  apply hv
  apply String.ext
  unfold log_line at h
  have hd := congrArg String.data h
  simp only [String.data_append, List.append_assoc] at hd
  iterate 6 replace hd := List.append_cancel_left hd
  exact List.append_cancel_right hd

lemma log_line_ne_of_date {l : LogRepr} {v : String} (hv : v ≠ l.date) :
    log_line { l with date := v } ≠ log_line l := by
  intro h
  apply hv
  apply String.ext
  unfold log_line at h
  have hd := congrArg String.data h
  simp only [String.data_append, List.append_assoc] at hd
  iterate 8 replace hd := List.append_cancel_left hd
  exact List.append_cancel_right hd

lemma log_line_ne_of_time_in {l : LogRepr} {v : String} (hv : v ≠ l.time_in) :
    log_line { l with time_in := v } ≠ log_line l := by
  intro h
  apply hv
  apply String.ext
  unfold log_line at h
  have hd := congrArg String.data h
  simp only [String.data_append, List.append_assoc] at hd
  iterate 10 replace hd := List.append_cancel_left hd
  exact List.append_cancel_right hd

lemma log_line_ne_of_time_out {l : LogRepr} {v : String} (hv : v ≠ l.time_out) :
    log_line { l with time_out := v } ≠ log_line l := by
  intro h
  apply hv
  apply String.ext
  unfold log_line at h
  have hd := congrArg String.data h
  simp only [String.data_append, List.append_assoc] at hd
  iterate 12 replace hd := List.append_cancel_left hd
  exact hd



lemma hash_ne_of_logline_ne (cs : List String) (m : Option (String × String))
    (pre post : List LogRepr) {l l' : LogRepr} (hne : log_line l ≠ log_line l') :
    generate_irradiation_hash cs m (pre ++ l :: post)
      ≠ generate_irradiation_hash cs m (pre ++ l' :: post) := by
  intro h
  apply hne
  unfold generate_irradiation_hash at h
  cases m with
  | none =>
    refine joinWith_inj_at "||"
      (["VERSION:3", "COMPOSITION:" ++ joinWith "," cs] ++ pre.map log_line)
      (post.map log_line) (log_line l) (log_line l') ?_
    simpa [List.map_append, List.append_assoc] using h
  | some mu =>
    refine joinWith_inj_at "||"
      (["VERSION:3", "COMPOSITION:" ++ joinWith "," cs,
        "MASS:" ++ mu.1 ++ "|" ++ mu.2] ++ pre.map log_line)
      (post.map log_line) (log_line l) (log_line l') ?_
    simpa [List.map_append, List.append_assoc] using h

lemma hash_ne_of_comp_change (preC postC : List String) {c c' : String}
    (hcc : c ≠ c') (m : Option (String × String)) (logs : List LogRepr) :
    generate_irradiation_hash (preC ++ c :: postC) m logs
      ≠ generate_irradiation_hash (preC ++ c' :: postC) m logs := by
  intro h
  apply hcc
  unfold generate_irradiation_hash at h
  have h1 : "COMPOSITION:" ++ joinWith "," (preC ++ c :: postC)
      = "COMPOSITION:" ++ joinWith "," (preC ++ c' :: postC) := by
    cases m with
    | none =>
      refine joinWith_inj_at "||" ["VERSION:3"] (logs.map log_line) _ _ ?_
      simpa [List.append_assoc] using h
    | some mu =>
      refine joinWith_inj_at "||" ["VERSION:3"]
        (("MASS:" ++ mu.1 ++ "|" ++ mu.2) :: logs.map log_line) _ _ ?_
      simpa [List.append_assoc] using h
  exact joinWith_inj_at "," preC postC c c' (str_left_cancel h1)

lemma hash_ne_of_mass_change (cs : List String) {m1 m2 : String} (u : String)
    (hm : m1 ≠ m2) (logs : List LogRepr) :
    generate_irradiation_hash cs (some (m1, u)) logs
      ≠ generate_irradiation_hash cs (some (m2, u)) logs := by
  intro h
  apply hm
  unfold generate_irradiation_hash at h
  have h1 : "MASS:" ++ m1 ++ "|" ++ u = "MASS:" ++ m2 ++ "|" ++ u := by
    refine joinWith_inj_at "||" ["VERSION:3", "COMPOSITION:" ++ joinWith "," cs]
      (logs.map log_line) _ _ ?_
    simpa [List.append_assoc] using h
  apply String.ext
  have hd := congrArg String.data h1
  simp only [String.data_append, List.append_assoc] at hd
  replace hd := List.append_cancel_left hd
  exact List.append_cancel_right hd

lemma get_cached_result_tags {store : List ((String × String) × ActivationResultRecord)}
    {sid hsh : String} {v : CachedView}
    (h : get_cached_result store sid hsh = some v) : v.from_cache = true := by
  unfold get_cached_result at h
  cases hf : store.find? (fun p => p.1.1 = sid ∧ p.1.2 = hsh) with
  | none => simp only [hf] at h; exact absurd h (by simp)
  | some p =>
    simp only [hf] at h
    by_cases hs : p.2.calculation_successful
    · rw [if_pos hs] at h
      obtain rfl := Option.some.inj h
      rfl
    · rw [if_neg hs] at h
      exact absurd h (by simp)


/-- C4 (amended): with caching enabled, a stored successful result for the
same (sample, fingerprint) key short-circuits the whole pipeline — the entry
point returns the cached view, tagged `from_cache`; the cached dict is the
*reduced* key set of `_get_cached_result`, not the full fresh shape (the
fresh success dict carries keys, e.g. `stable_isotopes` and
`skipped_irradiations`, that the cached dict lacks); and the fingerprint
pre-image is sensitive to every hashed field: changing one event's location,
power, duration, date, start or end time, one composition string, or the
mass value changes the fingerprint (identical inputs trivially fingerprint
identically, the hash being a function). -/
theorem cache_fingerprint_behaviour :
    (∀ (store : List ((String × String) × ActivationResultRecord)) (sample : Sample)
      (cs : List String) (m : Option (String × String)) (lr : List LogRepr)
      (logs : List IrradiationLog) (configs : List (String × FluxConfiguration))
      (gamma : List (String × GammaLines)) (minF : ℝ) (now : ℚ) (v : CachedView),
      get_cached_result store sample.sample_id (generate_irradiation_hash cs m lr)
          = some v →
      calculate_activation store true sample cs m lr logs configs gamma minF now
          = .cached v ∧ v.from_cache = true) ∧
    (∀ cs m pre post (l : LogRepr) (v : String), v ≠ l.location →
      generate_irradiation_hash cs m (pre ++ { l with location := v } :: post)
        ≠ generate_irradiation_hash cs m (pre ++ l :: post)) ∧
    (∀ cs m pre post (l : LogRepr) (v : String), v ≠ l.power →
      generate_irradiation_hash cs m (pre ++ { l with power := v } :: post)
        ≠ generate_irradiation_hash cs m (pre ++ l :: post)) ∧
    (∀ cs m pre post (l : LogRepr) (v : String), v ≠ l.total_time →
      generate_irradiation_hash cs m (pre ++ { l with total_time := v } :: post)
        ≠ generate_irradiation_hash cs m (pre ++ l :: post)) ∧
    (∀ cs m pre post (l : LogRepr) (v : String), v ≠ l.date →
      generate_irradiation_hash cs m (pre ++ { l with date := v } :: post)
        ≠ generate_irradiation_hash cs m (pre ++ l :: post)) ∧
    (∀ cs m pre post (l : LogRepr) (v : String), v ≠ l.time_in →
      generate_irradiation_hash cs m (pre ++ { l with time_in := v } :: post)
        ≠ generate_irradiation_hash cs m (pre ++ l :: post)) ∧
    (∀ cs m pre post (l : LogRepr) (v : String), v ≠ l.time_out →
      generate_irradiation_hash cs m (pre ++ { l with time_out := v } :: post)
        ≠ generate_irradiation_hash cs m (pre ++ l :: post)) ∧
    (∀ preC postC (c c' : String), c ≠ c' →
      ∀ (m : Option (String × String)) (lr : List LogRepr),
      generate_irradiation_hash (preC ++ c :: postC) m lr
        ≠ generate_irradiation_hash (preC ++ c' :: postC) m lr) ∧
    (∀ (cs : List String) (m1 m2 u : String), m1 ≠ m2 → ∀ (lr : List LogRepr),
      generate_irradiation_hash cs (some (m1, u)) lr
        ≠ generate_irradiation_hash cs (some (m2, u)) lr) ∧
    ("stable_isotopes" ∈ fresh_result_keys ∧
      "stable_isotopes" ∉ cached_result_keys ∧
      cached_result_keys ≠ fresh_result_keys) := by
  refine ⟨?_, ?_, ?_, ?_, ?_, ?_, ?_, ?_, ?_, ?_⟩
  · intro store sample cs m lr logs configs gamma minF now v hv
    constructor
    · unfold calculate_activation
      rw [if_pos rfl, hv]
    · exact get_cached_result_tags hv
  · intro cs m pre post l v hv
    exact hash_ne_of_logline_ne cs m pre post (log_line_ne_of_location hv)
  · intro cs m pre post l v hv
    exact hash_ne_of_logline_ne cs m pre post (log_line_ne_of_power hv)
  · intro cs m pre post l v hv
    exact hash_ne_of_logline_ne cs m pre post (log_line_ne_of_total_time hv)
  · intro cs m pre post l v hv
    exact hash_ne_of_logline_ne cs m pre post (log_line_ne_of_date hv)
  · intro cs m pre post l v hv
    exact hash_ne_of_logline_ne cs m pre post (log_line_ne_of_time_in hv)
  · intro cs m pre post l v hv
    exact hash_ne_of_logline_ne cs m pre post (log_line_ne_of_time_out hv)
  · intro preC postC c c' hcc m lr
    exact hash_ne_of_comp_change preC postC hcc m lr
  · intro cs m1 m2 u hm lr
    exact hash_ne_of_mass_change cs u hm lr
  · exact ⟨by decide, by decide, by decide⟩

/-- The stored cache row used by the C4 witness. -/
def wRecord : ActivationResultRecord :=
  { calculation_successful := true
    isotopic_inventory := []
    total_activity_bq := 0
    reference_time := 0
    estimated_dose_rate_1ft := none }

/-- A one-row cache store keyed by the gold sample and the empty-history
fingerprint. -/
def wStore : List ((String × String) × ActivationResultRecord) :=
  [(("AU-1", generate_irradiation_hash [] none []), wRecord)]

/-- The cached view that lookup converts `wRecord` into. -/
def wView : CachedView :=
  { calculation_successful := true
    isotopes := []
    total_activity_bq := 0
    reference_time := 0
    irradiation_hash := generate_irradiation_hash [] none []
    estimated_dose_rate_1ft := none
    from_cache := true }

/-- An event-field string bundle for the C4 witness. -/
def wLogRepr : LogRepr :=
  { pk := "1", location := "Core", power := "200", total_time := "4"
    date := "2024-01-15", time_in := "09:00:00", time_out := "13:00:00" }

/-- C4 witness: the theorem's short-circuit conjunct applied to the concrete
one-row store (lookup hypothesis discharged by evaluation), and its
location-sensitivity conjunct applied to a concrete one-event history. -/
theorem cache_fingerprint_behaviour_witness :
    (calculate_activation wStore true auSample [] none [] [] [] [] 0.001 0
      = .cached wView ∧ wView.from_cache = true) ∧
    generate_irradiation_hash [] none [{ wLogRepr with location := "Pool" }]
      ≠ generate_irradiation_hash [] none [wLogRepr] :=
  ⟨cache_fingerprint_behaviour.1 wStore auSample [] none [] [] [] [] 0.001 0 wView
      (by simp [get_cached_result, wStore, wRecord, wView, auSample]),
    cache_fingerprint_behaviour.2.1 [] none [] [] wLogRepr "Pool" (by decide)⟩

/-- C4 counterexample: the cached dict does not have the same shape as a
fresh calculation's dict — the fresh success dict carries `stable_isotopes`
(and more), the cached dict does not. -/
theorem cached_shape_differs :
    "stable_isotopes" ∈ fresh_result_keys ∧
    "stable_isotopes" ∉ cached_result_keys ∧
    "skipped_irradiations" ∈ fresh_result_keys ∧
    "skipped_irradiations" ∉ cached_result_keys := by
  refine ⟨by decide, by decide, by decide, by decide⟩


lemma gold_comp_ne_nil : get_sample_composition auSample ≠ [] := by
  simp [get_sample_composition, auSample, get_natural_isotopes, dictGet,
    pyCapitalize, pyStrip, upperChar, lowerChar, SIMPLE_CROSS_SECTIONS]

lemma gold_seq_ref :
    (sequence_step [("Core", coreConfig)]
      ⟨initialize_inventory (get_sample_composition auSample) auSample, none, []⟩
      auLog).reference_time = some 14400 := by
  unfold sequence_step
  rw [show find_flux_config [("Core", coreConfig)] auLog.actual_location
      = some coreConfig by simp [find_flux_config, dictGet, auLog]]
  simp [process_irradiation, auLog]

lemma fresh_gold_eval :
    (calculate_activation_fresh auSample [auLog] [("Core", coreConfig)] [] 0.001 ""
      1000000).calculation_successful = true ∧
    (calculate_activation_fresh auSample [auLog] [("Core", coreConfig)] [] 0.001 ""
      1000000).reference_time = some 1000000 := by
  unfold calculate_activation_fresh calculate_activation_body
  rw [if_neg gold_comp_ne_nil]
  dsimp only
  simp only [List.foldl_cons, List.foldl_nil]
  rw [gold_seq_ref]
  dsimp only
  rw [if_pos (by norm_num : (14400 : ℚ) < 1000000)]
  exact ⟨rfl, rfl⟩


/-- C5: `decay_to_date` validates the target against
`results['reference_time']` — which the activation pipeline sets to the
*current wall-clock instant* whenever that lies past the end of the last
event — so with the last irradiation ending at t = 14400 s and "now" at
t = 1000000 s, the aware target t = 500000 s (well after the last event's
end) is rejected with success=false and an error claiming the target "is
before last irradiation", naming t = 1000000 as the last irradiation. -/
theorem decay_to_date_rejects_after_last_event :
    decay_to_date auSample ⟨true, 500000⟩ [auLog] [("Core", coreConfig)] [] 0.001
        1000000
      = .ret { success := false
               error := some ("Target date (" ++ toString (500000 : ℚ) ++
                 ") is before last irradiation (" ++ toString (1000000 : ℚ) ++ ")")
               target_date := some 500000
               last_irradiation_date := some 1000000 } ∧
    auLog.end_s = 14400 ∧ (14400 : ℚ) ≤ 500000 := by
  refine ⟨?_, rfl, by norm_num⟩
  unfold decay_to_date
  rw [if_neg (by simp : ¬([auLog] : List IrradiationLog) = [])]
  dsimp only
  rw [fresh_gold_eval.1]
  rw [if_neg (by simp : ¬(true = false))]
  rw [fresh_gold_eval.2]
  dsimp only
  rw [show datetime_lt ⟨true, 500000⟩ ⟨true, 1000000⟩ = .ok true by
    simp [datetime_lt]; norm_num]

/-- C7 (amended): `calculate_activation` never lets an exception cross its
boundary — its catch-all turns any exception raised by the body into the
structured failure dict with the exception text, and a normal body result is
returned as-is — and `decay_to_date`'s *checked* error paths (here: an empty
irradiation history) likewise return structured `success=false` results. The
unchecked paths of `decay_to_date`, which has no try/except, can still raise
(see the counterexample). -/
theorem engine_raise_boundary :
    (∀ (sample : Sample) (logs : List IrradiationLog)
      (configs : List (String × FluxConfiguration))
      (gamma : List (String × GammaLines)) (minF : ℝ) (irr_hash : String) (now : ℚ)
      (msg : String),
      calculate_activation_body sample logs configs gamma minF irr_hash now
          = .error msg →
      calculate_activation_fresh sample logs configs gamma minF irr_hash now
        = { calculation_successful := false
            error_message := some msg
            isotopes := []
            stable_isotopes := []
            total_activity_bq := 0
            reference_time := none
            end_of_irradiation_time := none
            decay_time_days := none
            irradiation_hash := ""
            skipped_irradiations := []
            estimated_dose_rate_1ft := none }) ∧
    (∀ (sample : Sample) (logs : List IrradiationLog)
      (configs : List (String × FluxConfiguration))
      (gamma : List (String × GammaLines)) (minF : ℝ) (irr_hash : String) (now : ℚ)
      (r : CalcResult),
      calculate_activation_body sample logs configs gamma minF irr_hash now = .ok r →
      calculate_activation_fresh sample logs configs gamma minF irr_hash now = r) ∧
    (∀ (sample : Sample) (target : PyDateTime)
      (configs : List (String × FluxConfiguration))
      (gamma : List (String × GammaLines)) (minF : ℝ) (now : ℚ),
      decay_to_date sample target [] configs gamma minF now
        = .ret { success := false
                 error := some "Sample has no irradiation history"
                 target_date := some target.t }) := by
  refine ⟨?_, ?_, ?_⟩
  · intro sample logs configs gamma minF irr_hash now msg hmsg
    unfold calculate_activation_fresh
    rw [hmsg]
  · intro sample logs configs gamma minF irr_hash now r hr
    unfold calculate_activation_fresh
    rw [hr]
  · intro sample target configs gamma minF now
    unfold decay_to_date
    rw [if_pos rfl]

/-- C7 witness: the theorem's first conjunct applied to the concrete empty
sample, whose body raises `ValueError`, and its third conjunct applied to an
empty history — both hypotheses discharged by evaluation. -/
theorem engine_raise_boundary_witness :
    calculate_activation_fresh emptySample [] [] [] 0.001 "h" 0
      = { calculation_successful := false
          error_message := some ("No composition defined for sample E-1")
          isotopes := []
          stable_isotopes := []
          total_activity_bq := 0
          reference_time := none
          end_of_irradiation_time := none
          decay_time_days := none
          irradiation_hash := ""
          skipped_irradiations := []
          estimated_dose_rate_1ft := none } ∧
    decay_to_date auSample ⟨true, 0⟩ [] [] [] 0.001 0
      = .ret { success := false
               error := some "Sample has no irradiation history"
               target_date := some 0 } :=
  ⟨engine_raise_boundary.1 emptySample [] [] [] 0.001 "h" 0
      ("No composition defined for sample E-1")
      (by unfold calculate_activation_body
          rw [if_pos (by simp [get_sample_composition, emptySample])]
          rfl),
    engine_raise_boundary.2.2 auSample ⟨true, 0⟩ [] [] 0.001 0⟩

/-- C7 counterexample: `decay_to_date` has no try/except, and comparing the
caller's *naive* target datetime with the engine's aware reference instant
raises `TypeError` straight across the public boundary — the entry point does
not return a structured result for this input. -/
theorem decay_to_date_raises_on_naive_target :
    decay_to_date auSample ⟨false, 5000000⟩ [auLog] [("Core", coreConfig)] [] 0.001
        1000000
      = .raised "TypeError: cannot compare offset-naive and offset-aware datetimes"
      := by
  unfold decay_to_date
  rw [if_neg (by simp : ¬([auLog] : List IrradiationLog) = [])]
  dsimp only
  rw [fresh_gold_eval.1]
  rw [if_neg (by simp : ¬(true = false))]
  rw [fresh_gold_eval.2]
  dsimp only
  rw [show datetime_lt ⟨false, 5000000⟩ ⟨true, 1000000⟩
      = .error "TypeError: cannot compare offset-naive and offset-aware datetimes" by
    simp [datetime_lt]]

end IRF
